import Mathlib

/-!
The manipulator control plugin of bimanip_bot (`src/manipulator.cc`).

A shallow embedding of the control law of the two-joint planar manipulator.

* C++ `double` is embedded as an arbitrary scalar type `α`.  The regulator code
  uses only `+`, `-`, `*` and literals, so it is embedded over any type with
  these operations.  The planner, the clamp and the tick use comparisons and
  division and are embedded over a linearly ordered field (exact arithmetic;
  rounding is not modelled).
* `std::chrono::microseconds` counts are embedded as `Int`.
* The libm functions `sin`, `cos`, `sqrt` and the solver `ralgo::svd_backpack`
  are taken as parameters (`MathLib`); `svd_backpack` below is the exact
  least-squares solution, and the theorems on derivatives and on the
  determinant of the sensitivity vectors take the real sine and cosine.
* The simulator (joint feedback, wrench, base position, clock) is an explicit
  input record; calls that write to the simulator are returned as a list of
  effects.
-/

namespace Manipulator

/-! ## Library types used by the plugin

The headers `linalg/linalg.h`, `rabbit/space/htrans2.h`, `igris/math.h` and
`ralgo/linalg/backpack.h` are not part of the source tree.  The operations the
plugin calls are modelled below. -/

/-- The type `linalg::vec<double,2>`. -/
structure Vec2 (α : Type) where
  x : α
  y : α
deriving DecidableEq, Repr

namespace Vec2

variable {α : Type}

/-- Componentwise sum of two vectors (`operator+`). -/
instance [Add α] : Add (Vec2 α) := ⟨fun a b => ⟨a.x + b.x, a.y + b.y⟩⟩
/-- Componentwise difference of two vectors (`operator-`). -/
instance [Sub α] : Sub (Vec2 α) := ⟨fun a b => ⟨a.x - b.x, a.y - b.y⟩⟩
/-- Componentwise negation (unary `operator-`). -/
instance [Neg α] : Neg (Vec2 α) := ⟨fun a => ⟨-a.x, -a.y⟩⟩

/-- The product `k * v` of a scalar and a vector. -/
def smul [Mul α] (k : α) (v : Vec2 α) : Vec2 α := ⟨k * v.x, k * v.y⟩

/-- The product `v * k` of a vector and a scalar. -/
def muls [Mul α] (v : Vec2 α) (k : α) : Vec2 α := ⟨v.x * k, v.y * k⟩

end Vec2

/-- The external functions the tick calls: libm `sin`, `cos`, `sqrt`, and
`ralgo::svd_backpack(coords, target, vectors, 2)`, which receives the target
and the two vectors and fills the two coordinates. -/
structure MathLib (α : Type) where
  sin : α → α
  cos : α → α
  sqrt : α → α
  svd_backpack : Vec2 α → Vec2 α → Vec2 α → α × α

section Library

variable {α : Type} [LinearOrderedField α]

/-- Modelled from the spec: `linalg::rot(a, v)` (linalg.h is not in the source
tree), the planar rotation of `v` by the angle `a`. -/
def rot (m : MathLib α) (a : α) (v : Vec2 α) : Vec2 α :=
  ⟨v.x * m.cos a - v.y * m.sin a, v.x * m.sin a + v.y * m.cos a⟩

/-- Modelled from the spec: `linalg::cross(a, v)` of a scalar angular rate and a
planar vector (linalg.h is not in the source tree). -/
def cross (a : α) (v : Vec2 α) : Vec2 α := ⟨-a * v.y, a * v.x⟩

/-- Modelled from the spec: `linalg::length(v)` (linalg.h is not in the source
tree), the Euclidean norm. -/
def length (m : MathLib α) (v : Vec2 α) : α := m.sqrt (v.x * v.x + v.y * v.y)

/-- Modelled from the spec: `igris::clamp(v, lo, hi)` (igris/math.h is not in
the source tree): the scalar limited to the interval from `lo` to `hi`. -/
def clamp (v lo hi : α) : α := if v < lo then lo else if hi < v then hi else v

/-- Modelled from the spec: `rabbit::htrans2<double>` (rabbit/space/htrans2.h
is not in the source tree), the Pose2 of the data model: a rotation angle and
a planar translation. -/
structure htrans2 (α : Type) where
  orient : α
  center : Vec2 α
deriving DecidableEq, Repr

/-- Modelled from the spec: `rabbit::screw<double,2>` (not in the source tree),
the Screw2 of the data model: a scalar angular rate and a planar linear
velocity. -/
structure screw2 (α : Type) where
  ang : α
  lin : Vec2 α
deriving DecidableEq, Repr

/-- Modelled from the spec: composition `a * b` of two poses (htrans2.h is not
in the source tree). -/
def htrans2.mul (m : MathLib α) (a b : htrans2 α) : htrans2 α :=
  ⟨a.orient + b.orient, rot m a.orient b.center + a.center⟩

/-- Modelled from the spec: `htrans2::inverse()` (htrans2.h is not in the
source tree). -/
def htrans2.inverse (m : MathLib α) (a : htrans2 α) : htrans2 α :=
  ⟨-a.orient, rot m (-a.orient) (-a.center)⟩

/-- Modelled from the spec: `htrans2::translation()` (htrans2.h is not in the
source tree). -/
def htrans2.translation (a : htrans2 α) : Vec2 α := a.center

/-- Modelled from the spec: `htrans2::rotate(screw)` (htrans2.h is not in the
source tree): the screw with its linear part rotated by the pose orientation. -/
def htrans2.rotate (m : MathLib α) (a : htrans2 α) (s : screw2 α) : screw2 α :=
  ⟨s.ang, rot m a.orient s.lin⟩

/-- Modelled from the spec: `screw::kinematic_carry(arm)` (not in the source
tree): the same velocity state about the point displaced by `arm`. -/
def screw2.kinematic_carry (s : screw2 α) (arm : Vec2 α) : screw2 α :=
  ⟨s.ang, s.lin + cross s.ang arm⟩

end Library

/-! ## Regulator (manipulator.cc, lines 17-66) -/

/-- The struct `Regulator`: two enable flags, the loop variables, the four
gains, `force_compensation` and the last torque `control_signal`. -/
structure Regulator (α : Type) where
  speed2_loop_enabled : Bool
  position_loop_enabled : Bool
  speed_error : α
  position_error : α
  speed_target : α
  position_target : α
  speed_integral : α
  position_integral : α
  speed2_target : α
  pos_kp : α
  pos_ki : α
  spd_kp : α
  spd_ki : α
  force_compensation : α
  control_signal : α
deriving DecidableEq, Repr

namespace Regulator

variable {α : Type}

/-- The constant `Regulator::spd_K`. -/
def spd_K [OfScientific α] : α := 4.0
/-- The constant `Regulator::spd_D`. -/
def spd_D [OfScientific α] : α := 8.0
/-- The constant `Regulator::spd_W`. -/
def spd_W [OfScientific α] : α := 5.0
/-- The constant `Regulator::pos_K`. -/
def pos_K [OfScientific α] : α := 4.0
/-- The constant `Regulator::pos_D`. -/
def pos_D [OfScientific α] : α := 12.0
/-- The constant `Regulator::pos_W`. -/
def pos_W [OfScientific α] : α := 0.2

/-- A default-constructed `Regulator` (the member initialisers of lines 19-51). -/
def init [Zero α] [Mul α] [OfScientific α] : Regulator α :=
  { speed2_loop_enabled := true
    position_loop_enabled := true
    speed_error := 0
    position_error := 0
    speed_target := 0
    position_target := 0
    speed_integral := 0
    position_integral := 0
    speed2_target := 0.3
    pos_kp := pos_K * pos_D
    pos_ki := pos_K * pos_W * 0
    spd_kp := spd_K * spd_D
    spd_ki := spd_W * spd_K
    force_compensation := 0.1
    control_signal := 0 }

/-- The method `Regulator::reset` (lines 53-65). -/
def reset [Zero α] [OfScientific α] (r : Regulator α) : Regulator α :=
  { r with
    speed_error := 0
    position_error := 0
    speed_target := 0
    position_target := 0
    speed_integral := 0
    position_integral := 0
    speed2_target := 0.05 }

end Regulator

/-! ## ModelPush::Control (lines 256-283) -/

section Control

variable {α : Type} [Add α] [Sub α] [Mul α] [OfScientific α]

/-- The speed2 loop of `Control` (lines 261-264). -/
def speed2Loop (delta : α) (reg : Regulator α) : Regulator α :=
  if reg.speed2_loop_enabled then
    { reg with position_target := reg.position_target + reg.speed2_target * delta }
  else reg

/-- The position loop of `Control` (lines 266-274); the three assignments are
executed in order, each one reading the fields written before it. -/
def positionLoop (delta current_position : α) (reg : Regulator α) : Regulator α :=
  if reg.position_loop_enabled then
    let reg1 := { reg with position_error := reg.position_target - current_position }
    let reg2 := { reg1 with position_integral := reg1.position_integral + reg1.position_error * delta }
    { reg2 with
      speed_target :=
        reg2.pos_kp * reg2.position_error + reg2.pos_ki * reg2.position_integral
          - reg2.control_signal * 0.001 }
  else reg

/-- The speed loop of `Control` (lines 276-280). -/
def speedLoop (delta current_speed : α) (reg : Regulator α) : Regulator α :=
  let reg1 := { reg with speed_error := reg.speed_target - current_speed }
  let reg2 := { reg1 with speed_integral := reg1.speed_integral + reg1.speed_error * delta }
  { reg2 with
    control_signal := reg2.spd_kp * reg2.speed_error + reg2.spd_ki * reg2.speed_integral }

/-- The method `ModelPush::Control(joint, reg)`.  `delta` is the member
`delta`; `current_position` and `current_speed` are `joint->Position(0)` and
`joint->GetVelocity(0)`.  The result is the regulator after the call and the
value passed to `joint->SetForce(0, _)`. -/
def Control (delta current_position current_speed : α) (reg : Regulator α) :
    Regulator α × α :=
  let reg3 := speedLoop delta current_speed
    (positionLoop delta current_position (speed2Loop delta reg))
  (reg3, reg3.control_signal)

end Control

/-! ## ModelPush (lines 70-254) -/

/-- The joints the plugin addresses through `model->GetJoint`. -/
inductive Joint where
  | joint0
  | joint1
  | joint2
deriving DecidableEq, Repr

/-- A call that writes to the simulator. -/
inductive Effect (α : Type) where
  | SetProvideFeedback (j : Joint) (b : Bool)
  | SetPosition (j : Joint) (v : α)
  | SetForce (j : Joint) (v : α)
deriving DecidableEq, Repr

/-- Is the effect a torque command (`SetForce`)? -/
def Effect.isSetForce {α : Type} : Effect α → Bool
  | .SetForce _ _ => true
  | _ => false

/-- What one call of `OnUpdate` reads from the simulator and the clock:
`curtime` in microseconds, the angle and velocity of joint0 and joint1, the
force `body1Force` of the wrench of joint2, and the position of `link_0`. -/
structure Sim (α : Type) where
  curtime : Int
  joint0_position : α
  joint0_velocity : α
  joint1_position : α
  joint1_velocity : α
  force1_X : α
  force1_Y : α
  force1_Z : α
  pos0_X : α
  pos0_Z : α
deriving DecidableEq, Repr

/-- The members of `ModelPush`, with `name` standing for `model->GetName()`. -/
structure ModelPush (α : Type) where
  name : String
  inited : Int
  joint_base_regulator : Regulator α
  joint0_regulator : Regulator α
  joint1_regulator : Regulator α
  lasttime : Int
  starttime : Int
  delta : α
  position_integral : Vec2 α
deriving DecidableEq, Repr

section Tick

variable {α : Type} [LinearOrderedField α]

/-- The computation of `position_target` in `OnUpdate` (lines 199-207). -/
def position_target (m : MathLib α) (left : Bool) (time : α) : Vec2 α :=
  let X0 : α := 0.7 + 0.05 * time
  let X : α := if X0 > 1.3 then 1.3 else X0
  let p : Vec2 α := ⟨if left then -0.35 else 0.35, X⟩
  if time > 10 then
    p + ⟨m.sin (time / 2) * 0.3, -0.2 + m.cos (time / 2) * 0.2⟩
  else p

/-- The line `delta = (double)((curtime - lasttime).count()) / 1000000`. -/
def tickDelta (curtime lasttime : Int) : α := ((curtime - lasttime : Int) : α) / 1000000

/-- The line `double time = (curtime - starttime).count() / 1000000`: the
quotient is taken on the integer count (truncating) and then converted. -/
def tickTime (curtime starttime : Int) : α :=
  ((Int.tdiv (curtime - starttime) 1000000 : Int) : α)

/-- The local variables of the active branch of `OnUpdate` (lines 169-230). -/
structure Locals (α : Type) where
  joint0_pose : htrans2 α
  joint1_pose : htrans2 α
  output_pose : htrans2 α
  global_force : Vec2 α
  joint0_sens : screw2 α
  joint1_sens : screw2 α
  position_target : Vec2 α
  position_error : Vec2 α
  position_integral : Vec2 α
  target : Vec2 α
  solved : α × α
  coords0 : α
  coords1 : α
  result : Vec2 α
  control_error : α

/-- Lines 169-230 of `OnUpdate`: all locals of the active branch, from the
state on entry `s`, the simulator reading `inp`, and `delta` and `time`. -/
def activeLocals (m : MathLib α) (s : ModelPush α) (inp : Sim α) (delta time : α) :
    Locals α :=
  let joint0_rot : htrans2 α := ⟨-inp.joint0_position, ⟨0, 0⟩⟩
  let joint1_rot : htrans2 α := ⟨-inp.joint1_position, ⟨0, 0⟩⟩
  let local_force : Vec2 α := ⟨-inp.force1_X, -inp.force1_Z⟩
  let trans : htrans2 α := ⟨0, ⟨0, 0.8⟩⟩
  let joint0_pose : htrans2 α := ⟨0, ⟨inp.pos0_X, inp.pos0_Z⟩⟩
  let joint1_pose := htrans2.mul m (htrans2.mul m joint0_pose joint0_rot) trans
  let output_pose := htrans2.mul m (htrans2.mul m joint1_pose joint1_rot) trans
  let global_force := rot m output_pose.orient local_force
  let sens : screw2 α := ⟨-1, ⟨0, 0⟩⟩
  let joint0_sens := htrans2.rotate m joint0_pose
    (sens.kinematic_carry (htrans2.mul m (htrans2.inverse m joint0_pose) output_pose).center)
  let joint1_sens := htrans2.rotate m joint1_pose
    (sens.kinematic_carry (htrans2.mul m (htrans2.inverse m joint1_pose) output_pose).center)
  let left : Bool := s.name == "manip1"
  let ptarget := position_target m left time
  let position_error0 := ptarget - output_pose.translation
  let position_error := position_error0 + Vec2.muls ⟨global_force.x, 0⟩ 0.001
  let position_integral := s.position_integral + Vec2.muls position_error delta
  let target := Vec2.smul 1 position_error + Vec2.smul 0.05 position_integral
    + Vec2.muls global_force 0.001
  let solved := m.svd_backpack target joint0_sens.lin joint1_sens.lin
  let coords0 := clamp solved.1 (-3) 3
  let coords1 := clamp solved.2 (-3) 3
  let result := Vec2.muls joint0_sens.lin coords0 + Vec2.muls joint1_sens.lin coords1
  let control_error := length m (target - result)
  { joint0_pose := joint0_pose
    joint1_pose := joint1_pose
    output_pose := output_pose
    global_force := global_force
    joint0_sens := joint0_sens
    joint1_sens := joint1_sens
    position_target := ptarget
    position_error := position_error
    position_integral := position_integral
    target := target
    solved := solved
    coords0 := coords0
    coords1 := coords1
    result := result
    control_error := control_error }

/-- The locals of the active branch for the tick that `OnUpdate` runs on the
state `s` with the simulator reading `inp`. -/
def tickLocals (m : MathLib α) (s : ModelPush α) (inp : Sim α) : Locals α :=
  activeLocals m s inp (tickDelta inp.curtime s.lasttime) (tickTime inp.curtime s.starttime)

/-- The method `ModelPush::OnUpdate` (lines 142-254).  The result is the state
after the call and the calls made on the simulator, in order.  Console output
is left out. -/
def OnUpdate (m : MathLib α) (s : ModelPush α) (inp : Sim α) :
    ModelPush α × List (Effect α) :=
  let delta : α := tickDelta inp.curtime s.lasttime
  if s.inited = 0 then
    ({ s with delta := delta, inited := 1, lasttime := inp.curtime },
      [.SetProvideFeedback .joint0 true, .SetProvideFeedback .joint1 true,
       .SetProvideFeedback .joint2 true])
  else
    let loc := tickLocals m s inp
    let c0 := Control delta inp.joint0_position inp.joint0_velocity
      { s.joint0_regulator with speed2_target := loc.coords0 }
    let c1 := Control delta inp.joint1_position inp.joint1_velocity
      { s.joint1_regulator with speed2_target := loc.coords1 }
    ({ s with
        delta := delta
        position_integral := loc.position_integral
        joint0_regulator := c0.1
        joint1_regulator := c1.1
        lasttime := inp.curtime },
      [.SetForce .joint0 c0.2, .SetForce .joint1 c1.2])

/-- The method `ModelPush::Reset` (lines 90-123); `now1` and `now2` are the two
readings of the clock. -/
def Reset (now1 now2 : Int) (s : ModelPush α) : ModelPush α × List (Effect α) :=
  let r0 := s.joint0_regulator.reset
  let r1 := s.joint1_regulator.reset
  if s.name == "manip1" then
    ({ s with
        joint0_regulator := { r0 with position_target := -3.14 / 4 }
        joint1_regulator := { r1 with position_target := 3.14 / 2 }
        lasttime := now1
        starttime := now2
        inited := 0 },
      [.SetPosition .joint0 (-3.14 / 4), .SetPosition .joint1 (3.14 / 2)])
  else
    ({ s with
        joint0_regulator := { r0 with position_target := 3.14 / 4 }
        joint1_regulator := { r1 with position_target := -3.14 / 2 }
        lasttime := now1
        starttime := now2
        inited := 0 },
      [.SetPosition .joint0 (3.14 / 4), .SetPosition .joint1 (-3.14 / 2)])

end Tick

/-! ## The least-squares solve -/

section Solve

variable {α : Type} [LinearOrderedField α]

/-- The determinant of the 2x2 matrix whose columns are `v0` and `v1`. -/
def det2 (v0 v1 : Vec2 α) : α := v0.x * v1.y - v0.y * v1.x

/-- The scalar product of two planar vectors. -/
def dot2 (a b : Vec2 α) : α := a.x * b.x + a.y * b.y

/-- Modelled from the spec: `ralgo::svd_backpack(coords, target, vectors, 2)`
(ralgo/linalg/backpack.h is not in the source tree): the scalars c0, c1
minimizing the squared length of c0*v0 + c1*v1 - T, of minimum norm when the
minimizer is not unique.  In exact arithmetic this is the solution of the 2x2
system when the two vectors are independent, and the projection
(v0.T, v1.T) / (v0.v0 + v1.v1) when they are not. -/
def svd_backpack (T v0 v1 : Vec2 α) : α × α :=
  if det2 v0 v1 ≠ 0 then
    ((T.x * v1.y - T.y * v1.x) / det2 v0 v1, (v0.x * T.y - v0.y * T.x) / det2 v0 v1)
  else if dot2 v0 v0 + dot2 v1 v1 = 0 then (0, 0)
  else (dot2 v0 T / (dot2 v0 v0 + dot2 v1 v1), dot2 v1 T / (dot2 v0 v0 + dot2 v1 v1))

end Solve

/-- The simulator reading `inp` with the two joint angles replaced by `θ0` and
`θ1`. -/
def simAt {α : Type} (inp : Sim α) (θ0 θ1 : α) : Sim α :=
  { inp with joint0_position := θ0, joint1_position := θ1 }

/-! ## Sample inputs over the rationals -/

/-- A regulator with the position loop switched off and non-zero loop
variables, over the rationals. -/
def sampleReg : Regulator ℚ :=
  { speed2_loop_enabled := true
    position_loop_enabled := false
    speed_error := 1
    position_error := 2
    speed_target := 3
    position_target := 4
    speed_integral := 5
    position_integral := 6
    speed2_target := 7
    pos_kp := 48
    pos_ki := 0
    spd_kp := 32
    spd_ki := 20
    force_compensation := 0.1
    control_signal := 9 }

/-- A sample instance of the external functions over the rationals, for
evaluating the definitions at concrete inputs. -/
def sampleLib : MathLib ℚ :=
  { sin := fun _ => 0
    cos := fun _ => 1
    sqrt := fun x => x
    svd_backpack := fun t _ _ => (t.x, t.y) }

/-- A controller state of the mirrored arm over the rationals, initialized,
with default regulators. -/
def sampleActive : ModelPush ℚ :=
  { name := "manip1"
    inited := 1
    joint_base_regulator := Regulator.init
    joint0_regulator := Regulator.init
    joint1_regulator := Regulator.init
    lasttime := 5000000
    starttime := 0
    delta := 0
    position_integral := ⟨0, 0⟩ }

/-- A simulator reading six seconds after the start, one second after the
previous tick, with the arm stretched out and a contact force. -/
def sampleSim : Sim ℚ :=
  { curtime := 6000000
    joint0_position := 0
    joint0_velocity := 0
    joint1_position := 0
    joint1_velocity := 0
    force1_X := -8000
    force1_Y := 0
    force1_Z := 4000
    pos0_X := 0
    pos0_Z := 0 }

/-- A controller state of the mirrored arm that has not run its setup tick. -/
def sampleFresh : ModelPush ℚ := { sampleActive with inited := 0 }

/-- A sample instance of the external functions over the rationals in which
the angle -1 is a quarter turn clockwise, with the modelled solver. -/
def sampleBentLib : MathLib ℚ :=
  { sin := fun a => if a = -1 then -1 else 0
    cos := fun a => if a = -1 then 0 else 1
    sqrt := fun x => x
    svd_backpack := svd_backpack }

/-- A simulator reading six seconds after the start, one second after the
previous tick, with the second link bent and no contact force. -/
def sampleBentSim : Sim ℚ :=
  { curtime := 6000000
    joint0_position := 0
    joint0_velocity := 0
    joint1_position := 1
    joint1_velocity := 0
    force1_X := 0
    force1_Y := 0
    force1_Z := 0
    pos0_X := 0
    pos0_Z := 0 }

/-- A simulator reading in the same whole second as `sampleSim`, 999999
microseconds later. -/
def sampleLateSim : Sim ℚ := { sampleSim with curtime := 6999999 }

/-! ## Theorems -/

/-! ## Componentwise reading of the vector operations -/

section VecLemmas

variable {α : Type}

@[simp]
theorem Vec2.add_x [Add α] (a b : Vec2 α) : (a + b).x = a.x + b.x := rfl
@[simp]
theorem Vec2.add_y [Add α] (a b : Vec2 α) : (a + b).y = a.y + b.y := rfl
@[simp]
theorem Vec2.sub_x [Sub α] (a b : Vec2 α) : (a - b).x = a.x - b.x := rfl
@[simp]
theorem Vec2.sub_y [Sub α] (a b : Vec2 α) : (a - b).y = a.y - b.y := rfl
@[simp]
theorem Vec2.neg_x [Neg α] (a : Vec2 α) : (-a).x = -a.x := rfl
@[simp]
theorem Vec2.neg_y [Neg α] (a : Vec2 α) : (-a).y = -a.y := rfl
@[simp]
theorem Vec2.smul_x [Mul α] (k : α) (a : Vec2 α) : (Vec2.smul k a).x = k * a.x := rfl
@[simp]
theorem Vec2.smul_y [Mul α] (k : α) (a : Vec2 α) : (Vec2.smul k a).y = k * a.y := rfl
@[simp]
theorem Vec2.muls_x [Mul α] (a : Vec2 α) (k : α) : (Vec2.muls a k).x = a.x * k := rfl
@[simp]
theorem Vec2.muls_y [Mul α] (a : Vec2 α) (k : α) : (Vec2.muls a k).y = a.y * k := rfl

end VecLemmas

section RegulatorTheorems

variable {α : Type}

/-- C1: after `Regulator::reset`, whatever the state before, the six loop
variables position_error, speed_error, position_target, speed_target,
position_integral and speed_integral are 0 and speed2_target is 0.05. -/
theorem reset_zeroes_and_reseeds [Zero α] [OfScientific α] (r : Regulator α) :
    r.reset.position_error = 0 ∧ r.reset.speed_error = 0 ∧
    r.reset.position_target = 0 ∧ r.reset.speed_target = 0 ∧
    r.reset.position_integral = 0 ∧ r.reset.speed_integral = 0 ∧
    r.reset.speed2_target = 0.05 :=
  ⟨rfl, rfl, rfl, rfl, rfl, rfl, rfl⟩

/-- C6: with position_loop_enabled = false, a `Control` step leaves
speed_target, position_error and position_integral as they were, for every
feedback and every dt. -/
theorem Control_position_loop_disabled [Add α] [Sub α] [Mul α] [OfScientific α]
    (delta current_position current_speed : α) (reg : Regulator α)
    (h : reg.position_loop_enabled = false) :
    (Control delta current_position current_speed reg).1.speed_target = reg.speed_target ∧
    (Control delta current_position current_speed reg).1.position_error = reg.position_error ∧
    (Control delta current_position current_speed reg).1.position_integral
      = reg.position_integral := by
  have h2 : (speed2Loop delta reg).position_loop_enabled = false := by
    unfold speed2Loop
    split <;> simpa using h
  have e : positionLoop delta current_position (speed2Loop delta reg) = speed2Loop delta reg := by
    simp [positionLoop, h2]
  simp only [Control, e, speedLoop]
  unfold speed2Loop
  split <;> exact ⟨rfl, rfl, rfl⟩

end RegulatorTheorems

section RegulatorTheorems2

variable {α : Type}

/-- C7: with speed2_loop_enabled = false, a `Control` step leaves
position_target as it was, for every speed2_target, feedback and dt. -/
theorem Control_speed2_loop_disabled [Add α] [Sub α] [Mul α] [OfScientific α]
    (delta current_position current_speed : α) (reg : Regulator α)
    (h : reg.speed2_loop_enabled = false) :
    (Control delta current_position current_speed reg).1.position_target
      = reg.position_target := by
  have e : speed2Loop delta reg = reg := by simp [speed2Loop, h]
  simp only [Control, e, speedLoop]
  unfold positionLoop
  split <;> rfl

/-- C8: whatever the enable flags, a `Control` step computes
speed_error = speed_target - current_velocity from the speed_target left by
the position loop, adds speed_error*dt to speed_integral, sets
control_signal = spd_kp*speed_error + spd_ki*speed_integral, and writes to the
joint exactly the control_signal it stores. -/
theorem Control_speed_loop [Add α] [Sub α] [Mul α] [OfScientific α]
    (delta current_position current_speed : α) (reg : Regulator α) :
    (Control delta current_position current_speed reg).1.speed_target
      = (positionLoop delta current_position (speed2Loop delta reg)).speed_target ∧
    (Control delta current_position current_speed reg).1.speed_error
      = (Control delta current_position current_speed reg).1.speed_target - current_speed ∧
    (Control delta current_position current_speed reg).1.speed_integral
      = reg.speed_integral
        + (Control delta current_position current_speed reg).1.speed_error * delta ∧
    (Control delta current_position current_speed reg).1.control_signal
      = reg.spd_kp * (Control delta current_position current_speed reg).1.speed_error
        + reg.spd_ki * (Control delta current_position current_speed reg).1.speed_integral ∧
    (Control delta current_position current_speed reg).2
      = (Control delta current_position current_speed reg).1.control_signal := by
  refine ⟨rfl, rfl, ?_, ?_, rfl⟩ <;>
    (simp only [Control, speedLoop]; unfold positionLoop speed2Loop; split <;> split <;> rfl)

/-- C9: with position_loop_enabled = true, a `Control` step computes
position_error = position_target - current_angle from the position_target left
by the speed2 loop, adds position_error*dt to position_integral, and sets
speed_target = pos_kp*position_error + pos_ki*position_integral - 0.001*c with
c the control_signal held on entry; the speed_target held on entry has no
influence on the result. -/
theorem Control_position_loop [Field α]
    (delta current_position current_speed : α) (reg : Regulator α)
    (h : reg.position_loop_enabled = true) :
    (Control delta current_position current_speed reg).1.position_target
      = (if reg.speed2_loop_enabled then reg.position_target + reg.speed2_target * delta
         else reg.position_target) ∧
    (Control delta current_position current_speed reg).1.position_error
      = (Control delta current_position current_speed reg).1.position_target
        - current_position ∧
    (Control delta current_position current_speed reg).1.position_integral
      = reg.position_integral
        + (Control delta current_position current_speed reg).1.position_error * delta ∧
    (Control delta current_position current_speed reg).1.speed_target
      = reg.pos_kp * (Control delta current_position current_speed reg).1.position_error
        + reg.pos_ki * (Control delta current_position current_speed reg).1.position_integral
        - 0.001 * reg.control_signal ∧
    ∀ x : α, Control delta current_position current_speed { reg with speed_target := x }
      = Control delta current_position current_speed reg := by
  have h2 : (speed2Loop delta reg).position_loop_enabled = true := by
    unfold speed2Loop
    split <;> simpa using h
  refine ⟨?_, ?_, ?_, ?_, ?_⟩
  · simp only [Control, speedLoop, positionLoop, h2, if_true]
    unfold speed2Loop
    split <;> rfl
  · simp only [Control, speedLoop, positionLoop, h2, if_true]
  · simp only [Control, speedLoop, positionLoop, h2, if_true]
    unfold speed2Loop
    split <;> rfl
  · simp only [Control, speedLoop, positionLoop, h2, if_true]
    rw [mul_comm (0.001 : α)]
    unfold speed2Loop
    split <;> rfl
  · intro x
    simp only [Control, speedLoop, positionLoop, speed2Loop, h]
    split <;> simp [h]

/-- Witness for C6. -/
theorem Control_position_loop_disabled_witness :
    sampleReg.position_loop_enabled = false ∧
    ((Control (1 / 2) 1 2 sampleReg).1.speed_target = sampleReg.speed_target ∧
     (Control (1 / 2) 1 2 sampleReg).1.position_error = sampleReg.position_error ∧
     (Control (1 / 2) 1 2 sampleReg).1.position_integral = sampleReg.position_integral) :=
  ⟨rfl, Control_position_loop_disabled (1 / 2) 1 2 sampleReg rfl⟩

end RegulatorTheorems2

section PlannerTheorems

variable {α : Type} [LinearOrderedField α]

/-- The planner at t = 10, for either side: the ramp gives 1.2 and the test
`time > 10` fails. -/
theorem position_target_ten (m : MathLib α) (left : Bool) :
    position_target m left 10 = ⟨if left then -0.35 else 0.35, 1.2⟩ := by
  simp only [position_target]
  norm_num

/-- C2: for 0 <= t < 10 the planner yields (s, min(0.7 + 0.05*t, 1.3)) with no
orbit offset, s = -0.35 for the mirrored arm and +0.35 otherwise; the mirrored
arm at t = 5 yields (-0.35, 0.95). -/
theorem position_target_ramp (m : MathLib α) (left : Bool) (t : α)
    (_h0 : 0 ≤ t) (h10 : t < 10) :
    position_target m left t
      = ⟨if left then -0.35 else 0.35, min (0.7 + 0.05 * t) 1.3⟩ ∧
    position_target m true 5 = ⟨-0.35, 0.95⟩ := by
  constructor
  · have hX : ¬ (0.7 + 0.05 * t > (1.3 : α)) := by
      rw [gt_iff_lt, not_lt]; norm_num; linarith
    have hm : min (0.7 + 0.05 * t) (1.3 : α) = 0.7 + 0.05 * t :=
      min_eq_left (not_lt.mp hX)
    simp only [position_target, if_neg hX, if_neg (not_lt.mpr h10.le), hm]
  · simp only [position_target]
    norm_num

/-- C3 (amended): for the mirrored arm at t = 10 the planner yields
(-0.35, 1.2): the ramp 0.7 + 0.05*t has not yet reached 1.3, and the orbit
offset is not added because 10 > 10 is false. -/
theorem position_target_at_10 (m : MathLib α) :
    position_target m true 10 = ⟨-0.35, 1.2⟩ := by
  rw [position_target_ten]
  rfl

end PlannerTheorems

/-- Witness for C2. -/
theorem position_target_ramp_witness :
    (0 : ℚ) ≤ 5 ∧ (5 : ℚ) < 10 ∧
    (position_target sampleLib true 5
      = ⟨if true then -0.35 else 0.35, min (0.7 + 0.05 * 5) 1.3⟩ ∧
     position_target sampleLib true 5 = ⟨-0.35, 0.95⟩) :=
  ⟨by norm_num, by norm_num, position_target_ramp sampleLib true 5 (by norm_num) (by norm_num)⟩

/-- C3 (counterexample): for the mirrored arm at t = 10 the planner does not
yield (-0.35, 1.3). -/
theorem position_target_at_10_not_saturated :
    position_target sampleLib true 10 ≠ ⟨-0.35, 1.3⟩ := by
  rw [position_target_ten]
  intro h
  have := congrArg Vec2.y h
  norm_num at this

section OrbitTheorems

variable {α : Type} [LinearOrderedField α]

/-- C4 (amended): for every t > 10 the planner yields
(s + 0.3*sin(t/2), min(0.7 + 0.05*t, 1.3) + (-0.2 + 0.2*cos(t/2))) with
s = -0.35 if mirrored else +0.35; the ramped coordinate min(0.7 + 0.05*t, 1.3)
equals 1.3 exactly when t >= 12; at t = 10 itself no orbit offset is added and
the planner yields (s, 1.2). -/
theorem position_target_orbit (m : MathLib α) (left : Bool) (t : α) (h : 10 < t) :
    position_target m left t
      = ⟨(if left then -0.35 else 0.35) + 0.3 * m.sin (t / 2),
         min (0.7 + 0.05 * t) 1.3 + (-0.2 + 0.2 * m.cos (t / 2))⟩ ∧
    (min (0.7 + 0.05 * t) (1.3 : α) = 1.3 ↔ 12 ≤ t) ∧
    position_target m left 10 = ⟨if left then -0.35 else 0.35, 1.2⟩ := by
  refine ⟨?_, ?_, ?_⟩
  · have hm : (if 0.7 + 0.05 * t > (1.3 : α) then (1.3 : α) else 0.7 + 0.05 * t)
        = min (0.7 + 0.05 * t) 1.3 := by
      split
      · next h1 => exact (min_eq_right (le_of_lt h1)).symm
      · next h1 => exact (min_eq_left (not_lt.mp h1)).symm
    simp only [position_target, if_pos (gt_iff_lt.mpr h), hm]
    show Vec2.mk _ _ = _
    rw [mul_comm (m.sin (t / 2)), mul_comm (m.cos (t / 2))]
  · rw [min_eq_right_iff]
    constructor
    · intro h1
      have h2 : (0.05 : α) * 12 ≤ 0.05 * t := by
        have e : (0.05 : α) * 12 = 1.3 - 0.7 := by norm_num
        rw [e]; linarith
      exact le_of_mul_le_mul_left h2 (by norm_num)
    · intro h1
      have h2 : (0.05 : α) * 12 ≤ 0.05 * t :=
        mul_le_mul_of_nonneg_left h1 (by norm_num)
      have e : (0.05 : α) * 12 = 1.3 - 0.7 := by norm_num
      rw [e] at h2; linarith
  · exact position_target_ten m left

end OrbitTheorems

/-- Witness for C4 (amended). -/
theorem position_target_orbit_witness :
    (10 : ℚ) < 12 ∧
    (position_target sampleLib false 12
      = ⟨(if false then -0.35 else 0.35) + 0.3 * sampleLib.sin (12 / 2),
         min (0.7 + 0.05 * 12) 1.3 + (-0.2 + 0.2 * sampleLib.cos (12 / 2))⟩ ∧
     (min (0.7 + 0.05 * 12) (1.3 : ℚ) = 1.3 ↔ 12 ≤ (12 : ℚ)) ∧
     position_target sampleLib false 10 = ⟨if false then -0.35 else 0.35, 1.2⟩) :=
  ⟨by norm_num, position_target_orbit sampleLib false 12 (by norm_num)⟩

/-- C4 (counterexample): with the real sine and cosine, the planner at t = 10
is not the point with the orbit offset added, and at t = 11 its ramped
coordinate is not 1.3. -/
theorem position_target_orbit_claim_fails :
    position_target (MathLib.mk Real.sin Real.cos Real.sqrt (fun t _ _ => (t.x, t.y)))
        true (10 : ℝ)
      ≠ ⟨-0.35 + 0.3 * Real.sin (10 / 2), 1.3 + (-0.2 + 0.2 * Real.cos (10 / 2))⟩ ∧
    position_target (MathLib.mk Real.sin Real.cos Real.sqrt (fun t _ _ => (t.x, t.y)))
        true (11 : ℝ)
      ≠ ⟨-0.35 + 0.3 * Real.sin (11 / 2), 1.3 + (-0.2 + 0.2 * Real.cos (11 / 2))⟩ := by
  constructor
  · rw [position_target_ten]
    intro h
    have hx := congrArg Vec2.x h
    have hy := congrArg Vec2.y h
    simp only [if_true] at hx hy
    have hs : Real.sin (10 / 2) = 0 := by linarith
    have hc : Real.cos (10 / 2) = 1 / 2 := by linarith
    have := Real.sin_sq_add_cos_sq (10 / 2)
    rw [hs, hc] at this
    norm_num at this
  · intro h
    have hy := congrArg Vec2.y h
    simp only [position_target] at hy
    norm_num at hy
    linarith

section TickTheorems

variable {α : Type} [LinearOrderedField α]

/-- The regulator fields that `Control` never writes. -/
theorem Control_speed2_target (delta current_position current_speed : α) (reg : Regulator α) :
    (Control delta current_position current_speed reg).1.speed2_target = reg.speed2_target := by
  simp only [Control, speedLoop]
  unfold positionLoop speed2Loop
  split <;> split <;> rfl

/-- The modelled clamp, case by case. -/
theorem clamp_cases (c : α) :
    clamp c (-3) 3 = (if 3 < c then 3 else if c < -3 then -3 else c) := by
  unfold clamp
  by_cases h : c < -3
  · have h3 : ¬ (3 < c) := by linarith
    rw [if_pos h, if_neg h3, if_pos h]
  · rw [if_neg h]
    by_cases h3 : 3 < c
    · rw [if_pos h3, if_pos h3]
    · rw [if_neg h3, if_neg h3, if_neg h]

/-- The modelled clamp stays within the limits. -/
theorem clamp_bounds (c : α) : -3 ≤ clamp c (-3) 3 ∧ clamp c (-3) 3 ≤ 3 := by
  unfold clamp
  split
  · constructor <;> norm_num
  · next h =>
    split
    · constructor <;> norm_num
    · next h2 => exact ⟨not_lt.mp h, not_lt.mp h2⟩

/-- C5: on an active tick, whatever pair (c0, c1) the least-squares solve
returns (and whatever the residual is), the tick leaves
joint0_regulator.speed2_target = clamp(c0, -3, 3) and
joint1_regulator.speed2_target = clamp(c1, -3, 3); each lies in [-3, 3], is 3
when the solved scalar exceeds 3, -3 when it is below -3, and the solved
scalar otherwise. -/
theorem OnUpdate_speed2_target_clamped (m : MathLib α) (s : ModelPush α) (inp : Sim α)
    (c0 c1 : α) (hinit : s.inited ≠ 0)
    (hsol : (tickLocals m s inp).solved = (c0, c1)) :
    (OnUpdate m s inp).1.joint0_regulator.speed2_target = clamp c0 (-3) 3 ∧
    (OnUpdate m s inp).1.joint1_regulator.speed2_target = clamp c1 (-3) 3 ∧
    (-3 ≤ (OnUpdate m s inp).1.joint0_regulator.speed2_target ∧
      (OnUpdate m s inp).1.joint0_regulator.speed2_target ≤ 3) ∧
    (-3 ≤ (OnUpdate m s inp).1.joint1_regulator.speed2_target ∧
      (OnUpdate m s inp).1.joint1_regulator.speed2_target ≤ 3) ∧
    (OnUpdate m s inp).1.joint0_regulator.speed2_target
      = (if 3 < c0 then 3 else if c0 < -3 then -3 else c0) ∧
    (OnUpdate m s inp).1.joint1_regulator.speed2_target
      = (if 3 < c1 then 3 else if c1 < -3 then -3 else c1) := by
  have h0 : (tickLocals m s inp).coords0 = clamp c0 (-3) 3 := by
    have e : (tickLocals m s inp).coords0 = clamp (tickLocals m s inp).solved.1 (-3) 3 := rfl
    rw [e, hsol]
  have h1 : (tickLocals m s inp).coords1 = clamp c1 (-3) 3 := by
    have e : (tickLocals m s inp).coords1 = clamp (tickLocals m s inp).solved.2 (-3) 3 := rfl
    rw [e, hsol]
  have e0 : (OnUpdate m s inp).1.joint0_regulator.speed2_target = clamp c0 (-3) 3 := by
    simp only [OnUpdate, if_neg hinit, Control_speed2_target, h0]
  have e1 : (OnUpdate m s inp).1.joint1_regulator.speed2_target = clamp c1 (-3) 3 := by
    simp only [OnUpdate, if_neg hinit, Control_speed2_target, h1]
  rw [e0, e1]
  exact ⟨rfl, rfl, clamp_bounds c0, clamp_bounds c1, clamp_cases c0, clamp_cases c1⟩

end TickTheorems

/-- Witness for C5: a tick whose solved scalars 16.0325 and -4.63 both exceed
the limit. -/
theorem OnUpdate_speed2_target_clamped_witness :
    sampleActive.inited ≠ 0 ∧
    (tickLocals sampleLib sampleActive sampleSim).solved = (16.0325, -4.63) ∧
    ((OnUpdate sampleLib sampleActive sampleSim).1.joint0_regulator.speed2_target
        = clamp 16.0325 (-3) 3 ∧
     (OnUpdate sampleLib sampleActive sampleSim).1.joint1_regulator.speed2_target
        = clamp (-4.63) (-3) 3 ∧
     (-3 ≤ (OnUpdate sampleLib sampleActive sampleSim).1.joint0_regulator.speed2_target ∧
       (OnUpdate sampleLib sampleActive sampleSim).1.joint0_regulator.speed2_target ≤ 3) ∧
     (-3 ≤ (OnUpdate sampleLib sampleActive sampleSim).1.joint1_regulator.speed2_target ∧
       (OnUpdate sampleLib sampleActive sampleSim).1.joint1_regulator.speed2_target ≤ 3) ∧
     (OnUpdate sampleLib sampleActive sampleSim).1.joint0_regulator.speed2_target
       = (if 3 < (16.0325 : ℚ) then 3 else if (16.0325 : ℚ) < -3 then -3 else 16.0325) ∧
     (OnUpdate sampleLib sampleActive sampleSim).1.joint1_regulator.speed2_target
       = (if 3 < (-4.63 : ℚ) then 3 else if (-4.63 : ℚ) < -3 then -3 else -4.63)) := by
  have hinit : sampleActive.inited ≠ 0 := by decide
  have hsol : (tickLocals sampleLib sampleActive sampleSim).solved = (16.0325, -4.63) := by
    have e : Int.tdiv 6000000 1000000 = 6 := by decide
    simp [e, tickLocals, activeLocals, sampleLib, sampleActive, sampleSim, tickDelta, tickTime,
      htrans2.mul, htrans2.inverse, htrans2.rotate, htrans2.translation,
      screw2.kinematic_carry, rot, cross, position_target]
    norm_num
  exact ⟨hinit, hsol,
    OnUpdate_speed2_target_clamped sampleLib sampleActive sampleSim 16.0325 (-4.63) hinit hsol⟩

section LifecycleTheorems

variable {α : Type} [LinearOrderedField α]

/-- The setup branch of `OnUpdate`. -/
theorem OnUpdate_setup (m : MathLib α) (s : ModelPush α) (inp : Sim α) (h : s.inited = 0) :
    OnUpdate m s inp
      = ({ s with
            delta := tickDelta inp.curtime s.lasttime
            inited := 1
            lasttime := inp.curtime },
          [.SetProvideFeedback .joint0 true, .SetProvideFeedback .joint1 true,
           .SetProvideFeedback .joint2 true]) := by
  simp only [OnUpdate, if_pos h]

/-- The active branch of `OnUpdate`. -/
theorem OnUpdate_active (m : MathLib α) (s : ModelPush α) (inp : Sim α) (h : s.inited ≠ 0) :
    OnUpdate m s inp
      = ({ s with
            delta := tickDelta inp.curtime s.lasttime
            position_integral := (tickLocals m s inp).position_integral
            joint0_regulator :=
              (Control (tickDelta inp.curtime s.lasttime) inp.joint0_position
                inp.joint0_velocity
                { s.joint0_regulator with speed2_target := (tickLocals m s inp).coords0 }).1
            joint1_regulator :=
              (Control (tickDelta inp.curtime s.lasttime) inp.joint1_position
                inp.joint1_velocity
                { s.joint1_regulator with speed2_target := (tickLocals m s inp).coords1 }).1
            lasttime := inp.curtime },
          [.SetForce .joint0
             (Control (tickDelta inp.curtime s.lasttime) inp.joint0_position
                inp.joint0_velocity
                { s.joint0_regulator with speed2_target := (tickLocals m s inp).coords0 }).2,
           .SetForce .joint1
             (Control (tickDelta inp.curtime s.lasttime) inp.joint1_position
                inp.joint1_velocity
                { s.joint1_regulator with speed2_target := (tickLocals m s inp).coords1 }).2]) := by
  simp only [OnUpdate, if_neg h]

/-- C10: a tick taken with inited = 0 is setup only: the three regulators and
the Cartesian position_integral are unchanged, the only calls made enable
feedback on the three joints (none is a torque command), and inited becomes 1.
A tick taken with inited = 1 runs `Control` on joint0 and on joint1 with the
clamped commands, writes both torques, and keeps inited = 1.  No tick ends
with inited = 0, while `Reset` does. -/
theorem OnUpdate_lifecycle (m : MathLib α) (u a : ModelPush α) (inp : Sim α)
    (now1 now2 : Int) (hu : u.inited = 0) (ha : a.inited = 1) :
    ((OnUpdate m u inp).1.joint_base_regulator = u.joint_base_regulator ∧
     (OnUpdate m u inp).1.joint0_regulator = u.joint0_regulator ∧
     (OnUpdate m u inp).1.joint1_regulator = u.joint1_regulator ∧
     (OnUpdate m u inp).1.position_integral = u.position_integral ∧
     (OnUpdate m u inp).2
       = [.SetProvideFeedback .joint0 true, .SetProvideFeedback .joint1 true,
          .SetProvideFeedback .joint2 true] ∧
     (OnUpdate m u inp).2.filter Effect.isSetForce = [] ∧
     (OnUpdate m u inp).1.inited = 1) ∧
    ((OnUpdate m a inp).1.inited = 1 ∧
     (OnUpdate m a inp).1.joint0_regulator
       = (Control (tickDelta inp.curtime a.lasttime) inp.joint0_position inp.joint0_velocity
           { a.joint0_regulator with speed2_target := (tickLocals m a inp).coords0 }).1 ∧
     (OnUpdate m a inp).1.joint1_regulator
       = (Control (tickDelta inp.curtime a.lasttime) inp.joint1_position inp.joint1_velocity
           { a.joint1_regulator with speed2_target := (tickLocals m a inp).coords1 }).1 ∧
     (OnUpdate m a inp).2
       = [.SetForce .joint0 (OnUpdate m a inp).1.joint0_regulator.control_signal,
          .SetForce .joint1 (OnUpdate m a inp).1.joint1_regulator.control_signal]) ∧
    (∀ s : ModelPush α, (OnUpdate m s inp).1.inited ≠ 0) ∧
    (Reset now1 now2 a).1.inited = 0 := by
  have ha0 : ¬ a.inited = 0 := by rw [ha]; decide
  refine ⟨?_, ?_, ?_, ?_⟩
  · rw [OnUpdate_setup m u inp hu]
    exact ⟨rfl, rfl, rfl, rfl, rfl, rfl, rfl⟩
  · rw [OnUpdate_active m a inp ha0]
    exact ⟨ha, rfl, rfl, rfl⟩
  · intro s
    by_cases hs : s.inited = 0
    · rw [OnUpdate_setup m s inp hs]
      exact one_ne_zero
    · rw [OnUpdate_active m s inp hs]
      exact hs
  · unfold Reset
    split <;> rfl

end LifecycleTheorems

/-- Witness for C10. -/
theorem OnUpdate_lifecycle_witness :
    sampleFresh.inited = 0 ∧ sampleActive.inited = 1 ∧
    (OnUpdate sampleLib sampleFresh sampleSim).1.inited = 1 ∧
    (OnUpdate sampleLib sampleActive sampleSim).1.inited = 1 ∧
    (Reset 7 8 sampleActive).1.inited = 0 :=
  have h := OnUpdate_lifecycle sampleLib sampleFresh sampleActive sampleSim 7 8 rfl rfl
  ⟨rfl, rfl, h.1.2.2.2.2.2.2, h.2.1.1, h.2.2.2⟩

/-- Witness for C7. -/
theorem Control_speed2_loop_disabled_witness :
    ({ sampleReg with speed2_loop_enabled := false } : Regulator ℚ).speed2_loop_enabled = false ∧
    (Control 1000 1 2 { sampleReg with speed2_loop_enabled := false }).1.position_target
      = ({ sampleReg with speed2_loop_enabled := false } : Regulator ℚ).position_target :=
  ⟨rfl, Control_speed2_loop_disabled 1000 1 2 { sampleReg with speed2_loop_enabled := false } rfl⟩

/-- Witness for C9. -/
theorem Control_position_loop_witness :
    (Regulator.init : Regulator ℚ).position_loop_enabled = true ∧
    (Control (1 / 2) 1 2 (Regulator.init : Regulator ℚ)).1.position_error
      = (Control (1 / 2) 1 2 (Regulator.init : Regulator ℚ)).1.position_target - 1 ∧
    (Control (1 / 2) 1 2 (Regulator.init : Regulator ℚ)).1.position_integral
      = (Regulator.init : Regulator ℚ).position_integral
        + (Control (1 / 2) 1 2 (Regulator.init : Regulator ℚ)).1.position_error * (1 / 2) ∧
    (Control (1 / 2) 1 2 (Regulator.init : Regulator ℚ)).1.speed_target
      = (Regulator.init : Regulator ℚ).pos_kp
          * (Control (1 / 2) 1 2 (Regulator.init : Regulator ℚ)).1.position_error
        + (Regulator.init : Regulator ℚ).pos_ki
          * (Control (1 / 2) 1 2 (Regulator.init : Regulator ℚ)).1.position_integral
        - 0.001 * (Regulator.init : Regulator ℚ).control_signal :=
  have h := Control_position_loop (1 / 2) 1 2 (Regulator.init : Regulator ℚ) rfl
  ⟨rfl, h.2.1, h.2.2.1, h.2.2.2.1⟩

/-! ## The default gains, the reset frame and the controller reset -/

section GainTheorems

variable {α : Type} [LinearOrderedField α]

/-- Two vectors with equal components are equal. -/
theorem Vec2.eq_of {β : Type} (a b : Vec2 β) (hx : a.x = b.x) (hy : a.y = b.y) : a = b := by
  cases a; cases b; simp only [Vec2.mk.injEq]; exact ⟨hx, hy⟩

/-- With the position loop enabled, the position_error after `Control`. -/
theorem Control_position_error_formula {β : Type} [Field β]
    (delta current_position current_speed : β) (reg : Regulator β)
    (h : reg.position_loop_enabled = true) :
    (Control delta current_position current_speed reg).1.position_error
      = (if reg.speed2_loop_enabled then reg.position_target + reg.speed2_target * delta
         else reg.position_target) - current_position := by
  have h2 : (speed2Loop delta reg).position_loop_enabled = true := by
    unfold speed2Loop
    split <;> simpa using h
  simp only [Control, speedLoop, positionLoop, h2, if_true]
  unfold speed2Loop
  split <;> rfl

/-- With the position loop enabled, the speed_target after `Control`. -/
theorem Control_position_loop_formula {β : Type} [Field β]
    (delta current_position current_speed : β) (reg : Regulator β)
    (h : reg.position_loop_enabled = true) :
    (Control delta current_position current_speed reg).1.speed_target
      = reg.pos_kp * (Control delta current_position current_speed reg).1.position_error
        + reg.pos_ki * (Control delta current_position current_speed reg).1.position_integral
        - 0.001 * reg.control_signal := by
  have h2 : (speed2Loop delta reg).position_loop_enabled = true := by
    unfold speed2Loop
    split <;> simpa using h
  simp only [Control, speedLoop, positionLoop, h2, if_true]
  rw [mul_comm (0.001 : β)]
  unfold speed2Loop
  split <;> rfl

/-- C12: a default-constructed Regulator has spd_kp = spd_K*spd_D = 32,
spd_ki = spd_W*spd_K = 20, pos_kp = pos_K*pos_D = 48 and pos_ki = 0; a
regulator with these position gains and the position loop enabled gets
speed_target = 48*position_error - 0.001*(control_signal held on entry), and
the position_integral held on entry has no influence on speed_target. -/
theorem default_gains (delta current_position current_speed : α) (reg : Regulator α)
    (hkp : reg.pos_kp = (Regulator.init : Regulator α).pos_kp)
    (hki : reg.pos_ki = (Regulator.init : Regulator α).pos_ki)
    (hen : reg.position_loop_enabled = true) :
    ((Regulator.init : Regulator α).spd_kp = Regulator.spd_K * Regulator.spd_D ∧
     (Regulator.init : Regulator α).spd_kp = 32) ∧
    ((Regulator.init : Regulator α).spd_ki = Regulator.spd_K * Regulator.spd_W ∧
     (Regulator.init : Regulator α).spd_ki = 20) ∧
    ((Regulator.init : Regulator α).pos_kp = Regulator.pos_K * Regulator.pos_D ∧
     (Regulator.init : Regulator α).pos_kp = 48) ∧
    (Regulator.init : Regulator α).pos_ki = 0 ∧
    (Control delta current_position current_speed reg).1.speed_target
      = 48 * (Control delta current_position current_speed reg).1.position_error
        - 0.001 * reg.control_signal ∧
    ∀ x : α,
      (Control delta current_position current_speed { reg with position_integral := x }).1.speed_target
        = (Control delta current_position current_speed reg).1.speed_target := by
  have e48 : (Regulator.init : Regulator α).pos_kp = 48 := by
    simp only [Regulator.init, Regulator.pos_K, Regulator.pos_D]; norm_num
  have e0 : (Regulator.init : Regulator α).pos_ki = 0 := by
    simp only [Regulator.init, mul_zero]
  have hc := Control_position_loop_formula delta current_position current_speed reg hen
  refine ⟨⟨rfl, ?_⟩, ⟨?_, ?_⟩, ⟨rfl, e48⟩, e0, ?_, ?_⟩
  · simp only [Regulator.init, Regulator.spd_K, Regulator.spd_D]; norm_num
  · simp only [Regulator.init, Regulator.spd_K, Regulator.spd_W]; norm_num
  · simp only [Regulator.init, Regulator.spd_K, Regulator.spd_W]; norm_num
  · rw [hc, hkp, hki, e48, e0, zero_mul, add_zero]
  · intro x
    have hx := Control_position_loop_formula delta current_position current_speed
      { reg with position_integral := x } hen
    have px := Control_position_error_formula delta current_position current_speed
      { reg with position_integral := x } hen
    have pc := Control_position_error_formula delta current_position current_speed reg hen
    rw [hx, hc, px, pc]
    show reg.pos_kp * _ + reg.pos_ki * _ - 0.001 * reg.control_signal = _
    rw [hki, e0, zero_mul, zero_mul]

end GainTheorems

/-- Witness for C12. -/
theorem default_gains_witness :
    (Regulator.init : Regulator ℚ).pos_kp = (Regulator.init : Regulator ℚ).pos_kp ∧
    (Regulator.init : Regulator ℚ).pos_ki = (Regulator.init : Regulator ℚ).pos_ki ∧
    (Regulator.init : Regulator ℚ).position_loop_enabled = true ∧
    (Regulator.init : Regulator ℚ).spd_kp = 32 ∧
    (Regulator.init : Regulator ℚ).spd_ki = 20 ∧
    (Regulator.init : Regulator ℚ).pos_kp = 48 ∧
    (Regulator.init : Regulator ℚ).pos_ki = 0 ∧
    (Control (1 / 2) 1 2 (Regulator.init : Regulator ℚ)).1.speed_target
      = 48 * (Control (1 / 2) 1 2 (Regulator.init : Regulator ℚ)).1.position_error
        - 0.001 * (Regulator.init : Regulator ℚ).control_signal :=
  have h := default_gains (1 / 2) 1 2 (Regulator.init : Regulator ℚ) rfl rfl rfl
  ⟨rfl, rfl, rfl, h.1.2, h.2.1.2, h.2.2.1.2, h.2.2.2.1, h.2.2.2.2.1⟩

section ResetTheorems

variable {α : Type} [LinearOrderedField α]

/-- C19: for every state, `Regulator::reset` changes only speed_error,
position_error, speed_target, position_target, speed_integral,
position_integral and speed2_target: control_signal, the four gains,
force_compensation and both enable flags are as they were, whatever the flags
are.  So a last torque survives the reset, and when the position loop is
enabled the first `Control` step after the reset computes
speed_target = pos_kp*position_error + pos_ki*position_integral
- 0.001*(control_signal held before the reset). -/
theorem reset_frame (delta current_position current_speed : α) (r : Regulator α) :
    r.reset
      = { speed2_loop_enabled := r.speed2_loop_enabled
          position_loop_enabled := r.position_loop_enabled
          speed_error := 0
          position_error := 0
          speed_target := 0
          position_target := 0
          speed_integral := 0
          position_integral := 0
          speed2_target := 0.05
          pos_kp := r.pos_kp
          pos_ki := r.pos_ki
          spd_kp := r.spd_kp
          spd_ki := r.spd_ki
          force_compensation := r.force_compensation
          control_signal := r.control_signal } ∧
    r.reset.control_signal = r.control_signal ∧
    r.reset.pos_kp = r.pos_kp ∧ r.reset.pos_ki = r.pos_ki ∧
    r.reset.spd_kp = r.spd_kp ∧ r.reset.spd_ki = r.spd_ki ∧
    r.reset.force_compensation = r.force_compensation ∧
    r.reset.speed2_loop_enabled = r.speed2_loop_enabled ∧
    r.reset.position_loop_enabled = r.position_loop_enabled ∧
    (r.position_loop_enabled = true →
      (Control delta current_position current_speed r.reset).1.speed_target
        = r.pos_kp * (Control delta current_position current_speed r.reset).1.position_error
          + r.pos_ki
            * (Control delta current_position current_speed r.reset).1.position_integral
          - 0.001 * r.control_signal) :=
  ⟨rfl, rfl, rfl, rfl, rfl, rfl, rfl, rfl, rfl,
    fun hen => Control_position_loop_formula delta current_position current_speed r.reset hen⟩

/-- The branch of `Reset` for the model named manip1. -/
theorem Reset_manip1 (now1 now2 : Int) (s : ModelPush α) (h : s.name = "manip1") :
    Reset now1 now2 s
      = ({ s with
            joint0_regulator := { s.joint0_regulator.reset with position_target := -3.14 / 4 }
            joint1_regulator := { s.joint1_regulator.reset with position_target := 3.14 / 2 }
            lasttime := now1
            starttime := now2
            inited := 0 },
          [.SetPosition .joint0 (-3.14 / 4), .SetPosition .joint1 (3.14 / 2)]) := by
  have hb : (s.name == "manip1") = true := by simp [h]
  simp only [Reset, if_pos hb]

/-- The branch of `Reset` for any other model. -/
theorem Reset_other (now1 now2 : Int) (s : ModelPush α) (h : s.name ≠ "manip1") :
    Reset now1 now2 s
      = ({ s with
            joint0_regulator := { s.joint0_regulator.reset with position_target := 3.14 / 4 }
            joint1_regulator := { s.joint1_regulator.reset with position_target := -3.14 / 2 }
            lasttime := now1
            starttime := now2
            inited := 0 },
          [.SetPosition .joint0 (3.14 / 4), .SetPosition .joint1 (-3.14 / 2)]) := by
  have hb : ¬ ((s.name == "manip1") = true) := by simp [h]
  simp only [Reset, if_neg hb]

/-- C20: after `ModelPush::Reset`, from any state, inited = 0; joint0_regulator
and joint1_regulator have speed_error, position_error, speed_target and both
integrals 0 and speed2_target 0.05; their position_target is the commanded
joint position, (-3.14/4, 3.14/2) for the model named manip1 and
(3.14/4, -3.14/2) otherwise, each the negation of the other side and not 0;
joint_base_regulator is unchanged. -/
theorem Reset_state (now1 now2 : Int) (s : ModelPush α) :
    (Reset now1 now2 s).1.inited = 0 ∧
    ((Reset now1 now2 s).1.joint0_regulator.speed_error = 0 ∧
     (Reset now1 now2 s).1.joint0_regulator.position_error = 0 ∧
     (Reset now1 now2 s).1.joint0_regulator.speed_target = 0 ∧
     (Reset now1 now2 s).1.joint0_regulator.speed_integral = 0 ∧
     (Reset now1 now2 s).1.joint0_regulator.position_integral = 0 ∧
     (Reset now1 now2 s).1.joint0_regulator.speed2_target = 0.05) ∧
    ((Reset now1 now2 s).1.joint1_regulator.speed_error = 0 ∧
     (Reset now1 now2 s).1.joint1_regulator.position_error = 0 ∧
     (Reset now1 now2 s).1.joint1_regulator.speed_target = 0 ∧
     (Reset now1 now2 s).1.joint1_regulator.speed_integral = 0 ∧
     (Reset now1 now2 s).1.joint1_regulator.position_integral = 0 ∧
     (Reset now1 now2 s).1.joint1_regulator.speed2_target = 0.05) ∧
    (Reset now1 now2 s).1.joint0_regulator.position_target
      = (if s.name = "manip1" then -3.14 / 4 else 3.14 / 4) ∧
    (Reset now1 now2 s).1.joint1_regulator.position_target
      = (if s.name = "manip1" then 3.14 / 2 else -3.14 / 2) ∧
    (Reset now1 now2 s).1.joint0_regulator.position_target ≠ 0 ∧
    (Reset now1 now2 s).1.joint1_regulator.position_target ≠ 0 ∧
    ((-3.14 / 4 : α) = -(3.14 / 4) ∧ (3.14 / 2 : α) = -(-3.14 / 2)) ∧
    (Reset now1 now2 s).2
      = (if s.name = "manip1" then
          [.SetPosition .joint0 (-3.14 / 4), .SetPosition .joint1 (3.14 / 2)]
         else [.SetPosition .joint0 (3.14 / 4), .SetPosition .joint1 (-3.14 / 2)]) ∧
    (Reset now1 now2 s).1.joint_base_regulator = s.joint_base_regulator := by
  by_cases hn : s.name = "manip1"
  · rw [Reset_manip1 now1 now2 s hn, if_pos hn, if_pos hn, if_pos hn]
    refine ⟨rfl, ⟨rfl, rfl, rfl, rfl, rfl, rfl⟩, ⟨rfl, rfl, rfl, rfl, rfl, rfl⟩,
      rfl, rfl, ?_, ?_, ?_, rfl, rfl⟩
    · show (-3.14 / 4 : α) ≠ 0
      norm_num
    · show (3.14 / 2 : α) ≠ 0
      norm_num
    · constructor <;> norm_num
  · rw [Reset_other now1 now2 s hn, if_neg hn, if_neg hn, if_neg hn]
    refine ⟨rfl, ⟨rfl, rfl, rfl, rfl, rfl, rfl⟩, ⟨rfl, rfl, rfl, rfl, rfl, rfl⟩,
      rfl, rfl, ?_, ?_, ?_, rfl, rfl⟩
    · show (3.14 / 4 : α) ≠ 0
      norm_num
    · show (-3.14 / 2 : α) ≠ 0
      norm_num
    · constructor <;> norm_num

end ResetTheorems

/-- Witness for C19: a regulator whose last torque is 9, with the position
loop disabled (the frame) and enabled (the frame and the first step). -/
theorem reset_frame_witness :
    (sampleReg.position_loop_enabled = false ∧
     sampleReg.reset.control_signal = 9 ∧ sampleReg.reset.spd_kp = 32 ∧
     sampleReg.reset.position_loop_enabled = false) ∧
    ({ sampleReg with position_loop_enabled := true } : Regulator ℚ).position_loop_enabled
      = true ∧
    ({ sampleReg with position_loop_enabled := true } : Regulator ℚ).reset.control_signal = 9 ∧
    (Control (1 / 2) 1 2
        ({ sampleReg with position_loop_enabled := true } : Regulator ℚ).reset).1.speed_target
      = 48 * (Control (1 / 2) 1 2
          ({ sampleReg with position_loop_enabled := true } : Regulator ℚ).reset).1.position_error
        + 0 * (Control (1 / 2) 1 2
          ({ sampleReg with position_loop_enabled := true } : Regulator ℚ).reset).1.position_integral
        - 0.001 * 9 :=
  have hoff := reset_frame (1 / 2) 1 2 sampleReg
  have hon := reset_frame (1 / 2) 1 2
    ({ sampleReg with position_loop_enabled := true } : Regulator ℚ)
  ⟨⟨rfl, hoff.2.1, hoff.2.2.2.2.1, hoff.2.2.2.2.2.2.2.2.1⟩, rfl, hon.2.1,
    hon.2.2.2.2.2.2.2.2.2 rfl⟩

/-! ## The Cartesian correction, the clock and the step bound -/

section CartesianTheorems

variable {α : Type} [LinearOrderedField α]

/-- The position_target after `Control`, whatever the flags. -/
theorem Control_position_target_formula {β : Type} [Add β] [Sub β] [Mul β] [OfScientific β]
    (delta current_position current_speed : β) (reg : Regulator β) :
    (Control delta current_position current_speed reg).1.position_target
      = (if reg.speed2_loop_enabled then reg.position_target + reg.speed2_target * delta
         else reg.position_target) := by
  simp only [Control, speedLoop]
  unfold positionLoop speed2Loop
  split <;> split <;> rfl

/-- The planner target of a tick is the planner at the truncated time. -/
theorem tickLocals_position_target (m : MathLib α) (s : ModelPush α) (inp : Sim α) :
    (tickLocals m s inp).position_target
      = position_target m (s.name == "manip1") (tickTime inp.curtime s.starttime) := rfl

/-- C13: on an active tick, with planner target p*, end-effector position p,
global force F, Cartesian integral I on entry and tick length dt, the code
computes e = (p* - p) + (0.001*F.x, 0), stores I + e*dt as the new integral,
and forms T = 1*e + 0.05*(I + e*dt) + 0.001*F; with F = 0 the error is p* - p
and T = e + 0.05*(I + e*dt). -/
theorem cartesian_correction (m : MathLib α) (s : ModelPush α) (inp : Sim α)
    (hinit : s.inited ≠ 0) :
    (tickLocals m s inp).position_error
      = ((tickLocals m s inp).position_target - (tickLocals m s inp).output_pose.translation)
        + ⟨0.001 * (tickLocals m s inp).global_force.x, 0⟩ ∧
    (tickLocals m s inp).position_integral
      = s.position_integral
        + Vec2.muls (tickLocals m s inp).position_error (tickDelta inp.curtime s.lasttime) ∧
    (OnUpdate m s inp).1.position_integral = (tickLocals m s inp).position_integral ∧
    (tickLocals m s inp).target
      = Vec2.smul 1 (tickLocals m s inp).position_error
        + Vec2.smul 0.05 (tickLocals m s inp).position_integral
        + Vec2.smul 0.001 (tickLocals m s inp).global_force ∧
    ((tickLocals m s inp).global_force = ⟨0, 0⟩ →
      (tickLocals m s inp).position_error
        = (tickLocals m s inp).position_target - (tickLocals m s inp).output_pose.translation ∧
      (tickLocals m s inp).target
        = (tickLocals m s inp).position_error
          + Vec2.smul 0.05 (tickLocals m s inp).position_integral) := by
  have he : (tickLocals m s inp).position_error
      = ((tickLocals m s inp).position_target - (tickLocals m s inp).output_pose.translation)
        + Vec2.muls ⟨(tickLocals m s inp).global_force.x, 0⟩ 0.001 := rfl
  have ht : (tickLocals m s inp).target
      = Vec2.smul 1 (tickLocals m s inp).position_error
        + Vec2.smul 0.05 (tickLocals m s inp).position_integral
        + Vec2.muls (tickLocals m s inp).global_force 0.001 := rfl
  have he2 : (tickLocals m s inp).position_error
      = ((tickLocals m s inp).position_target - (tickLocals m s inp).output_pose.translation)
        + ⟨0.001 * (tickLocals m s inp).global_force.x, 0⟩ := by
    rw [he]
    apply Vec2.eq_of
    · simp only [Vec2.add_x, Vec2.muls_x, mul_comm]
    · simp only [Vec2.add_y, Vec2.muls_y, zero_mul]
  have ht2 : (tickLocals m s inp).target
      = Vec2.smul 1 (tickLocals m s inp).position_error
        + Vec2.smul 0.05 (tickLocals m s inp).position_integral
        + Vec2.smul 0.001 (tickLocals m s inp).global_force := by
    rw [ht]
    apply Vec2.eq_of
    · simp only [Vec2.add_x, Vec2.muls_x, Vec2.smul_x, mul_comm]
    · simp only [Vec2.add_y, Vec2.muls_y, Vec2.smul_y, mul_comm]
  refine ⟨he2, rfl, ?_, ht2, ?_⟩
  · rw [OnUpdate_active m s inp hinit]
  · intro hF
    constructor
    · rw [he2, hF]
      apply Vec2.eq_of
      · simp only [Vec2.add_x, mul_zero, add_zero]
      · simp only [Vec2.add_y, add_zero]
    · rw [ht2, hF]
      apply Vec2.eq_of
      · simp only [Vec2.add_x, Vec2.smul_x, mul_zero, add_zero, one_mul]
      · simp only [Vec2.add_y, Vec2.smul_y, mul_zero, add_zero, one_mul]

/-- C17: the time given to the planner is the truncated integer quotient of
curtime - starttime by 1000000, converted afterwards, so two ticks in the same
whole second get the same planner target; delta is the exact quotient of
curtime - lasttime by 1000000. -/
theorem planner_time_whole_seconds (m : MathLib α) (s : ModelPush α) (inp1 inp2 : Sim α)
    (hsame : Int.tdiv (inp1.curtime - s.starttime) 1000000
      = Int.tdiv (inp2.curtime - s.starttime) 1000000) :
    tickTime inp1.curtime s.starttime
      = ((Int.tdiv (inp1.curtime - s.starttime) 1000000 : Int) : α) ∧
    (tickLocals m s inp1).position_target
      = position_target m (s.name == "manip1")
          ((Int.tdiv (inp1.curtime - s.starttime) 1000000 : Int) : α) ∧
    (tickLocals m s inp1).position_target = (tickLocals m s inp2).position_target ∧
    (OnUpdate m s inp1).1.delta = tickDelta inp1.curtime s.lasttime ∧
    (tickDelta inp1.curtime s.lasttime : α) * 1000000
      = ((inp1.curtime - s.lasttime : Int) : α) := by
  refine ⟨rfl, rfl, ?_, ?_, ?_⟩
  · rw [tickLocals_position_target, tickLocals_position_target]
    unfold tickTime
    rw [hsame]
  · by_cases h : s.inited = 0
    · rw [OnUpdate_setup m s inp1 h]
    · rw [OnUpdate_active m s inp1 h]
  · unfold tickDelta
    rw [div_mul_cancel₀]
    norm_num

/-- C18: on an active tick with dt >= 0, the position_target of joint0 and of
joint1 moves by clamp(c_i, -3, 3)*dt when the speed2 loop of that regulator is
enabled and by 0 when it is disabled, hence by at most 3*dt in absolute value,
whatever the solve returns. -/
theorem position_target_step_bounded (m : MathLib α) (s : ModelPush α) (inp : Sim α)
    (hinit : s.inited ≠ 0) (hdt : 0 ≤ (tickDelta inp.curtime s.lasttime : α)) :
    ((OnUpdate m s inp).1.joint0_regulator.position_target - s.joint0_regulator.position_target
        = (if s.joint0_regulator.speed2_loop_enabled then
            clamp (tickLocals m s inp).solved.1 (-3) 3 * tickDelta inp.curtime s.lasttime
           else 0) ∧
     |(OnUpdate m s inp).1.joint0_regulator.position_target
        - s.joint0_regulator.position_target| ≤ 3 * tickDelta inp.curtime s.lasttime) ∧
    ((OnUpdate m s inp).1.joint1_regulator.position_target - s.joint1_regulator.position_target
        = (if s.joint1_regulator.speed2_loop_enabled then
            clamp (tickLocals m s inp).solved.2 (-3) 3 * tickDelta inp.curtime s.lasttime
           else 0) ∧
     |(OnUpdate m s inp).1.joint1_regulator.position_target
        - s.joint1_regulator.position_target| ≤ 3 * tickDelta inp.curtime s.lasttime) := by
  have key : ∀ (c : α) (reg : Regulator α) (p v : α),
      ((Control (tickDelta inp.curtime s.lasttime) p v
          { reg with speed2_target := clamp c (-3) 3 }).1.position_target - reg.position_target
        = (if reg.speed2_loop_enabled then clamp c (-3) 3 * tickDelta inp.curtime s.lasttime
           else 0)) ∧
      |(Control (tickDelta inp.curtime s.lasttime) p v
          { reg with speed2_target := clamp c (-3) 3 }).1.position_target - reg.position_target|
        ≤ 3 * tickDelta inp.curtime s.lasttime := by
    intro c reg p v
    rw [Control_position_target_formula]
    show (if reg.speed2_loop_enabled then
            reg.position_target + clamp c (-3) 3 * tickDelta inp.curtime s.lasttime
          else reg.position_target) - reg.position_target = _ ∧ _
    by_cases hen : reg.speed2_loop_enabled = true
    · rw [if_pos hen, if_pos hen, add_sub_cancel_left]
      refine ⟨rfl, ?_⟩
      rw [abs_mul, abs_of_nonneg hdt]
      apply mul_le_mul_of_nonneg_right _ hdt
      rw [abs_le]
      exact clamp_bounds c
    · rw [if_neg hen, if_neg hen, sub_self, abs_zero]
      exact ⟨rfl, mul_nonneg (by norm_num) hdt⟩
  rw [OnUpdate_active m s inp hinit]
  exact ⟨key _ s.joint0_regulator _ _, key _ s.joint1_regulator _ _⟩

end CartesianTheorems

/-- Witness for C13: an active tick with no contact force. -/
theorem cartesian_correction_witness :
    sampleActive.inited ≠ 0 ∧
    (tickLocals sampleLib sampleActive sampleBentSim).global_force = ⟨0, 0⟩ ∧
    (tickLocals sampleLib sampleActive sampleBentSim).position_error
      = (tickLocals sampleLib sampleActive sampleBentSim).position_target
        - (tickLocals sampleLib sampleActive sampleBentSim).output_pose.translation ∧
    (tickLocals sampleLib sampleActive sampleBentSim).target
      = (tickLocals sampleLib sampleActive sampleBentSim).position_error
        + Vec2.smul 0.05 (tickLocals sampleLib sampleActive sampleBentSim).position_integral ∧
    (OnUpdate sampleLib sampleActive sampleBentSim).1.position_integral
      = (tickLocals sampleLib sampleActive sampleBentSim).position_integral := by
  have hinit : sampleActive.inited ≠ 0 := by decide
  have hF : (tickLocals sampleLib sampleActive sampleBentSim).global_force = ⟨0, 0⟩ := by
    simp [tickLocals, activeLocals, sampleLib, sampleBentSim, htrans2.mul, rot]
  have h := cartesian_correction sampleLib sampleActive sampleBentSim hinit
  exact ⟨hinit, hF, (h.2.2.2.2 hF).1, (h.2.2.2.2 hF).2, h.2.2.1⟩

/-- Witness for C17: two ticks in the seventh second after the start. -/
theorem planner_time_whole_seconds_witness :
    Int.tdiv (sampleSim.curtime - sampleActive.starttime) 1000000
      = Int.tdiv (sampleLateSim.curtime - sampleActive.starttime) 1000000 ∧
    (tickTime sampleLateSim.curtime sampleActive.starttime : ℚ) = ((6 : Int) : ℚ) ∧
    (tickLocals sampleLib sampleActive sampleSim).position_target
      = (tickLocals sampleLib sampleActive sampleLateSim).position_target ∧
    (tickDelta sampleLateSim.curtime sampleActive.lasttime : ℚ) * 1000000
      = ((1999999 : Int) : ℚ) := by
  have hsame : Int.tdiv (sampleSim.curtime - sampleActive.starttime) 1000000
      = Int.tdiv (sampleLateSim.curtime - sampleActive.starttime) 1000000 := by decide
  have h1 := planner_time_whole_seconds sampleLib sampleActive sampleSim sampleLateSim hsame
  have h2 := planner_time_whole_seconds sampleLib sampleActive sampleLateSim sampleSim hsame.symm
  exact ⟨hsame, h2.1, h1.2.2.1, h2.2.2.2.2⟩

/-- Witness for C18: an active tick of one second. -/
theorem position_target_step_bounded_witness :
    sampleActive.inited ≠ 0 ∧
    (0 : ℚ) ≤ tickDelta sampleSim.curtime sampleActive.lasttime ∧
    |(OnUpdate sampleLib sampleActive sampleSim).1.joint0_regulator.position_target
        - sampleActive.joint0_regulator.position_target|
      ≤ 3 * tickDelta sampleSim.curtime sampleActive.lasttime ∧
    |(OnUpdate sampleLib sampleActive sampleSim).1.joint1_regulator.position_target
        - sampleActive.joint1_regulator.position_target|
      ≤ 3 * tickDelta sampleSim.curtime sampleActive.lasttime := by
  have hinit : sampleActive.inited ≠ 0 := by decide
  have hdt : (0 : ℚ) ≤ tickDelta sampleSim.curtime sampleActive.lasttime := by
    simp [tickDelta, sampleSim, sampleActive]
  have h := position_target_step_bounded sampleLib sampleActive sampleSim hinit hdt
  exact ⟨hinit, hdt, h.1.2, h.2.2⟩

/-! ## The least-squares solve on independent vectors -/

section SolveTheorems

variable {α : Type} [LinearOrderedField α]

/-- Two planar vectors are linearly independent exactly when their determinant
is not zero. -/
theorem independent_iff_det2_ne_zero (v0 v1 : Vec2 α) :
    (∀ a b : α, Vec2.smul a v0 + Vec2.smul b v1 = ⟨0, 0⟩ → a = 0 ∧ b = 0)
      ↔ det2 v0 v1 ≠ 0 := by
  constructor
  · intro h hd
    unfold det2 at hd
    by_cases hx : v1.x = 0 ∧ v0.x = 0
    · by_cases hy : v1.y = 0 ∧ v0.y = 0
      · have := h 1 0 (by
          apply Vec2.eq_of
          · simp only [Vec2.add_x, Vec2.smul_x, hx.2, hx.1, mul_zero, add_zero]
          · simp only [Vec2.add_y, Vec2.smul_y, hy.2, hy.1, mul_zero, add_zero])
        exact one_ne_zero this.1
      · have := h v1.y (-v0.y) (by
          apply Vec2.eq_of
          · simp only [Vec2.add_x, Vec2.smul_x]; linarith
          · simp only [Vec2.add_y, Vec2.smul_y]; ring)
        apply hy
        exact ⟨this.1, by simpa using this.2⟩
    · have := h v1.x (-v0.x) (by
        apply Vec2.eq_of
        · simp only [Vec2.add_x, Vec2.smul_x]; ring
        · simp only [Vec2.add_y, Vec2.smul_y]; linarith)
      apply hx
      exact ⟨this.1, by simpa using this.2⟩
  · intro hd a b hab
    have hx : a * v0.x + b * v1.x = 0 := by
      have := congrArg Vec2.x hab
      simpa only [Vec2.add_x, Vec2.smul_x] using this
    have hy : a * v0.y + b * v1.y = 0 := by
      have := congrArg Vec2.y hab
      simpa only [Vec2.add_y, Vec2.smul_y] using this
    unfold det2 at hd
    have ha : a * (v0.x * v1.y - v0.y * v1.x) = 0 := by
      have : a * (v0.x * v1.y - v0.y * v1.x)
          = (a * v0.x + b * v1.x) * v1.y - (a * v0.y + b * v1.y) * v1.x := by ring
      rw [this, hx, hy]; ring
    have hb : b * (v0.x * v1.y - v0.y * v1.x) = 0 := by
      have : b * (v0.x * v1.y - v0.y * v1.x)
          = (a * v0.y + b * v1.y) * v0.x - (a * v0.x + b * v1.x) * v0.y := by ring
      rw [this, hx, hy]; ring
    exact ⟨(mul_eq_zero.mp ha).resolve_right hd, (mul_eq_zero.mp hb).resolve_right hd⟩

/-- The modelled solve reproduces the target when the determinant is not zero. -/
theorem svd_backpack_solves (T v0 v1 : Vec2 α) (hd : det2 v0 v1 ≠ 0) :
    Vec2.muls v0 (svd_backpack T v0 v1).1 + Vec2.muls v1 (svd_backpack T v0 v1).2 = T := by
  simp only [svd_backpack, if_pos hd]
  apply Vec2.eq_of
  · simp only [Vec2.add_x, Vec2.muls_x]
    field_simp
    unfold det2
    ring
  · simp only [Vec2.add_y, Vec2.muls_y]
    field_simp
    unfold det2
    ring

/-- The modelled clamp returns a scalar within the limits unchanged. -/
theorem clamp_of_mem (c : α) (h : -3 ≤ c ∧ c ≤ 3) : clamp c (-3) 3 = c := by
  unfold clamp
  rw [if_neg (not_lt.mpr h.1), if_neg (not_lt.mpr h.2)]

/-- C11: for linearly independent v0, v1 and every target T the scalars of the
least-squares solve satisfy c0*v0 + c1*v1 = T; on a tick whose sensitivity
vectors are independent and whose solved scalars both lie in [-3, 3], the
vector rebuilt after clamping equals the target and control_error is 0. -/
theorem svd_backpack_exact (T v0 v1 : Vec2 α)
    (hind : ∀ a b : α, Vec2.smul a v0 + Vec2.smul b v1 = ⟨0, 0⟩ → a = 0 ∧ b = 0)
    (m : MathLib α) (s : ModelPush α) (inp : Sim α)
    (hsolver : m.svd_backpack = svd_backpack) (hsqrt : m.sqrt 0 = 0)
    (hsens : ∀ a b : α,
      Vec2.smul a (tickLocals m s inp).joint0_sens.lin
        + Vec2.smul b (tickLocals m s inp).joint1_sens.lin = ⟨0, 0⟩ → a = 0 ∧ b = 0)
    (h0 : -3 ≤ (tickLocals m s inp).solved.1 ∧ (tickLocals m s inp).solved.1 ≤ 3)
    (h1 : -3 ≤ (tickLocals m s inp).solved.2 ∧ (tickLocals m s inp).solved.2 ≤ 3) :
    Vec2.smul (svd_backpack T v0 v1).1 v0 + Vec2.smul (svd_backpack T v0 v1).2 v1 = T ∧
    Vec2.smul (tickLocals m s inp).solved.1 (tickLocals m s inp).joint0_sens.lin
      + Vec2.smul (tickLocals m s inp).solved.2 (tickLocals m s inp).joint1_sens.lin
      = (tickLocals m s inp).target ∧
    (tickLocals m s inp).result = (tickLocals m s inp).target ∧
    (tickLocals m s inp).control_error = 0 := by
  have comm : ∀ (c0 c1 : α) (a b : Vec2 α),
      Vec2.smul c0 a + Vec2.smul c1 b = Vec2.muls a c0 + Vec2.muls b c1 := by
    intro c0 c1 a b
    apply Vec2.eq_of
    · simp only [Vec2.add_x, Vec2.smul_x, Vec2.muls_x, mul_comm]
    · simp only [Vec2.add_y, Vec2.smul_y, Vec2.muls_y, mul_comm]
  have hsol : (tickLocals m s inp).solved
      = svd_backpack (tickLocals m s inp).target (tickLocals m s inp).joint0_sens.lin
          (tickLocals m s inp).joint1_sens.lin := by
    have e : (tickLocals m s inp).solved
        = m.svd_backpack (tickLocals m s inp).target (tickLocals m s inp).joint0_sens.lin
            (tickLocals m s inp).joint1_sens.lin := rfl
    rw [e, hsolver]
  have hex : Vec2.muls (tickLocals m s inp).joint0_sens.lin (tickLocals m s inp).solved.1
      + Vec2.muls (tickLocals m s inp).joint1_sens.lin (tickLocals m s inp).solved.2
      = (tickLocals m s inp).target := by
    rw [hsol]
    exact svd_backpack_solves _ _ _ ((independent_iff_det2_ne_zero _ _).mp hsens)
  have hres : (tickLocals m s inp).result = (tickLocals m s inp).target := by
    have e : (tickLocals m s inp).result
        = Vec2.muls (tickLocals m s inp).joint0_sens.lin
            (clamp (tickLocals m s inp).solved.1 (-3) 3)
          + Vec2.muls (tickLocals m s inp).joint1_sens.lin
            (clamp (tickLocals m s inp).solved.2 (-3) 3) := rfl
    rw [e, clamp_of_mem _ h0, clamp_of_mem _ h1, hex]
  refine ⟨?_, ?_, hres, ?_⟩
  · rw [comm]
    exact svd_backpack_solves T v0 v1 ((independent_iff_det2_ne_zero _ _).mp hind)
  · rw [comm]
    exact hex
  · have e : (tickLocals m s inp).control_error
        = length m ((tickLocals m s inp).target - (tickLocals m s inp).result) := rfl
    rw [e, hres]
    simp only [length, Vec2.sub_x, Vec2.sub_y, sub_self, mul_zero, add_zero]
    exact hsqrt

end SolveTheorems

/-- Witness for C11: the bent arm, whose sensitivity vectors are (0.8, -0.8)
and (0, -0.8) and whose solved scalars are -1.509375 and 1.246875. -/
theorem svd_backpack_exact_witness :
    (tickLocals sampleBentLib sampleActive sampleBentSim).joint0_sens.lin = ⟨0.8, -0.8⟩ ∧
    (tickLocals sampleBentLib sampleActive sampleBentSim).joint1_sens.lin = ⟨0, -0.8⟩ ∧
    (tickLocals sampleBentLib sampleActive sampleBentSim).solved = (-1.509375, 1.246875) ∧
    sampleBentLib.svd_backpack = svd_backpack ∧ sampleBentLib.sqrt 0 = 0 ∧
    Vec2.smul (svd_backpack (⟨1, 2⟩ : Vec2 ℚ) ⟨0.8, -0.8⟩ ⟨0, -0.8⟩).1 ⟨0.8, -0.8⟩
      + Vec2.smul (svd_backpack (⟨1, 2⟩ : Vec2 ℚ) ⟨0.8, -0.8⟩ ⟨0, -0.8⟩).2 ⟨0, -0.8⟩
      = ⟨1, 2⟩ ∧
    (tickLocals sampleBentLib sampleActive sampleBentSim).result
      = (tickLocals sampleBentLib sampleActive sampleBentSim).target ∧
    (tickLocals sampleBentLib sampleActive sampleBentSim).control_error = 0 := by
  have e : Int.tdiv 6000000 1000000 = 6 := by decide
  have hv0 : (tickLocals sampleBentLib sampleActive sampleBentSim).joint0_sens.lin
      = ⟨0.8, -0.8⟩ := by
    simp [tickLocals, activeLocals, sampleBentLib, sampleBentSim, htrans2.mul,
      htrans2.inverse, htrans2.rotate, screw2.kinematic_carry, rot, cross]
  have hv1 : (tickLocals sampleBentLib sampleActive sampleBentSim).joint1_sens.lin
      = ⟨0, -0.8⟩ := by
    simp [tickLocals, activeLocals, sampleBentLib, sampleBentSim, htrans2.mul,
      htrans2.inverse, htrans2.rotate, screw2.kinematic_carry, rot, cross]
  have hT : (tickLocals sampleBentLib sampleActive sampleBentSim).target
      = ⟨-1.2075, 0.21⟩ := by
    apply Vec2.eq_of <;>
      simp [e, tickLocals, activeLocals, sampleBentLib, sampleBentSim, sampleActive, tickDelta,
        tickTime, htrans2.mul, htrans2.translation, rot, position_target] <;>
      norm_num
  have hd : det2 (⟨0.8, -0.8⟩ : Vec2 ℚ) ⟨0, -0.8⟩ ≠ 0 := by
    simp only [det2]; norm_num
  have hsol : (tickLocals sampleBentLib sampleActive sampleBentSim).solved
      = (-1.509375, 1.246875) := by
    have e2 : (tickLocals sampleBentLib sampleActive sampleBentSim).solved
        = svd_backpack (tickLocals sampleBentLib sampleActive sampleBentSim).target
            (tickLocals sampleBentLib sampleActive sampleBentSim).joint0_sens.lin
            (tickLocals sampleBentLib sampleActive sampleBentSim).joint1_sens.lin := rfl
    rw [e2, hv0, hv1, hT]
    simp only [svd_backpack, if_pos hd, det2]
    norm_num
  have hind : ∀ a b : ℚ,
      Vec2.smul a (⟨0.8, -0.8⟩ : Vec2 ℚ) + Vec2.smul b ⟨0, -0.8⟩ = ⟨0, 0⟩ → a = 0 ∧ b = 0 :=
    (independent_iff_det2_ne_zero _ _).mpr hd
  have h := svd_backpack_exact (⟨1, 2⟩ : Vec2 ℚ) ⟨0.8, -0.8⟩ ⟨0, -0.8⟩ hind
    sampleBentLib sampleActive sampleBentSim rfl rfl
    (by rw [hv0, hv1]; exact hind)
    (by rw [hsol]; constructor <;> norm_num)
    (by rw [hsol]; constructor <;> norm_num)
  exact ⟨hv0, hv1, hsol, rfl, rfl, h.1, h.2.2.1, h.2.2.2⟩

/-! ## Forward kinematics and sensitivity vectors -/

section KinematicsTheorems

variable {α : Type} [LinearOrderedField α]

/-- The pose of joint1 computed by the active branch. -/
theorem activeLocals_joint1_pose (m : MathLib α) (s : ModelPush α) (inp : Sim α)
    (delta time : α) :
    (activeLocals m s inp delta time).joint1_pose
      = ⟨-inp.joint0_position,
         (⟨inp.pos0_X, inp.pos0_Z⟩ : Vec2 α) + rot m (-inp.joint0_position) ⟨0, 0.8⟩⟩ := by
  simp only [activeLocals, htrans2.mul, rot, zero_add, add_zero, zero_mul, sub_zero]
  congr 1
  apply Vec2.eq_of
  · simp only [Vec2.add_x, zero_mul, zero_sub, zero_add, sub_self]
    ring
  · simp only [Vec2.add_y, zero_mul, zero_add, add_zero]
    ring

/-- The pose of the end effector computed by the active branch. -/
theorem activeLocals_output_pose (m : MathLib α) (s : ModelPush α) (inp : Sim α)
    (delta time : α) :
    (activeLocals m s inp delta time).output_pose
      = ⟨-(inp.joint0_position + inp.joint1_position),
         (⟨inp.pos0_X, inp.pos0_Z⟩ : Vec2 α) + rot m (-inp.joint0_position) ⟨0, 0.8⟩
           + rot m (-inp.joint0_position - inp.joint1_position) ⟨0, 0.8⟩⟩ := by
  have e : (activeLocals m s inp delta time).output_pose
      = htrans2.mul m (htrans2.mul m (activeLocals m s inp delta time).joint1_pose
          ⟨-inp.joint1_position, ⟨0, 0⟩⟩) ⟨0, ⟨0, 0.8⟩⟩ := rfl
  rw [e, activeLocals_joint1_pose]
  simp only [htrans2.mul, add_zero]
  have ha : -inp.joint0_position + -inp.joint1_position
      = -(inp.joint0_position + inp.joint1_position) := by ring
  have hb : -inp.joint0_position - inp.joint1_position
      = -(inp.joint0_position + inp.joint1_position) := by ring
  rw [ha, hb]
  congr 1
  apply Vec2.eq_of
  · simp only [Vec2.add_x, rot, zero_mul]
    ring
  · simp only [Vec2.add_y, rot, zero_mul]
    ring

/-- C14: for all joint angles θ0, θ1 and every base position b, the end-effector
pose has orientation -(θ0 + θ1) and translation
b + R(-θ0)*(0, 0.8) + R(-θ0-θ1)*(0, 0.8), and the joint1 pose has translation
b + R(-θ0)*(0, 0.8), with R(a) the planar rotation `rot` by the angle a. -/
theorem forward_kinematics (m : MathLib α) (s : ModelPush α) (inp : Sim α) (delta time : α) :
    (activeLocals m s inp delta time).output_pose.orient
      = -(inp.joint0_position + inp.joint1_position) ∧
    (activeLocals m s inp delta time).output_pose.translation
      = (⟨inp.pos0_X, inp.pos0_Z⟩ : Vec2 α) + rot m (-inp.joint0_position) ⟨0, 0.8⟩
        + rot m (-inp.joint0_position - inp.joint1_position) ⟨0, 0.8⟩ ∧
    (activeLocals m s inp delta time).joint1_pose.translation
      = (⟨inp.pos0_X, inp.pos0_Z⟩ : Vec2 α) + rot m (-inp.joint0_position) ⟨0, 0.8⟩ ∧
    (∀ (a : α) (v : Vec2 α),
      rot m a v = ⟨v.x * m.cos a - v.y * m.sin a, v.x * m.sin a + v.y * m.cos a⟩) := by
  rw [activeLocals_output_pose, activeLocals_joint1_pose]
  exact ⟨rfl, rfl, rfl, fun _ _ => rfl⟩

end KinematicsTheorems

section RealKinematics

/-- With the real sine and cosine, the end-effector position in coordinates. -/
theorem real_output_center (sq : ℝ → ℝ) (sv : Vec2 ℝ → Vec2 ℝ → Vec2 ℝ → ℝ × ℝ)
    (s : ModelPush ℝ) (inp : Sim ℝ) (delta time : ℝ) :
    (activeLocals (MathLib.mk Real.sin Real.cos sq sv) s inp delta time).output_pose.center
      = ⟨inp.pos0_X + 0.8 * Real.sin inp.joint0_position
           + 0.8 * Real.sin (inp.joint0_position + inp.joint1_position),
         inp.pos0_Z + 0.8 * Real.cos inp.joint0_position
           + 0.8 * Real.cos (inp.joint0_position + inp.joint1_position)⟩ := by
  rw [activeLocals_output_pose]
  have hb : -inp.joint0_position - inp.joint1_position
      = -(inp.joint0_position + inp.joint1_position) := by ring
  rw [hb]
  apply Vec2.eq_of
  · simp only [Vec2.add_x, rot, zero_mul, Real.sin_neg]
    ring
  · simp only [Vec2.add_y, rot, zero_mul, Real.cos_neg]
    ring

/-- With the real sine and cosine, the joint1 position in coordinates. -/
theorem real_joint1_center (sq : ℝ → ℝ) (sv : Vec2 ℝ → Vec2 ℝ → Vec2 ℝ → ℝ × ℝ)
    (s : ModelPush ℝ) (inp : Sim ℝ) (delta time : ℝ) :
    (activeLocals (MathLib.mk Real.sin Real.cos sq sv) s inp delta time).joint1_pose.center
      = ⟨inp.pos0_X + 0.8 * Real.sin inp.joint0_position,
         inp.pos0_Z + 0.8 * Real.cos inp.joint0_position⟩ := by
  rw [activeLocals_joint1_pose]
  apply Vec2.eq_of
  · simp only [Vec2.add_x, rot, zero_mul, Real.sin_neg]
    ring
  · simp only [Vec2.add_y, rot, zero_mul, Real.cos_neg]
    ring

/-- With the real sine and cosine, the sensitivity vector of joint0. -/
theorem real_joint0_sens (sq : ℝ → ℝ) (sv : Vec2 ℝ → Vec2 ℝ → Vec2 ℝ → ℝ × ℝ)
    (s : ModelPush ℝ) (inp : Sim ℝ) (delta time : ℝ) :
    (activeLocals (MathLib.mk Real.sin Real.cos sq sv) s inp delta time).joint0_sens.lin
      = ⟨0.8 * Real.cos inp.joint0_position
           + 0.8 * Real.cos (inp.joint0_position + inp.joint1_position),
         -(0.8 * Real.sin inp.joint0_position
           + 0.8 * Real.sin (inp.joint0_position + inp.joint1_position))⟩ := by
  have e : (activeLocals (MathLib.mk Real.sin Real.cos sq sv) s inp delta time).joint0_sens
      = htrans2.rotate (MathLib.mk Real.sin Real.cos sq sv) ⟨0, ⟨inp.pos0_X, inp.pos0_Z⟩⟩
          (screw2.kinematic_carry ⟨-1, ⟨0, 0⟩⟩
            (htrans2.mul (MathLib.mk Real.sin Real.cos sq sv)
              (htrans2.inverse (MathLib.mk Real.sin Real.cos sq sv)
                ⟨0, ⟨inp.pos0_X, inp.pos0_Z⟩⟩)
              (activeLocals (MathLib.mk Real.sin Real.cos sq sv) s inp delta
                time).output_pose).center) := rfl
  rw [e]
  apply Vec2.eq_of
  · simp only [htrans2.rotate, htrans2.mul, htrans2.inverse, screw2.kinematic_carry, rot, cross,
      real_output_center, Vec2.add_x, Vec2.add_y, Vec2.neg_x, Vec2.neg_y, neg_zero,
      Real.sin_zero, Real.cos_zero]
    ring
  · simp only [htrans2.rotate, htrans2.mul, htrans2.inverse, screw2.kinematic_carry, rot, cross,
      real_output_center, Vec2.add_x, Vec2.add_y, Vec2.neg_x, Vec2.neg_y, neg_zero,
      Real.sin_zero, Real.cos_zero]
    ring

/-- With the real sine and cosine, the sensitivity vector of joint1. -/
theorem real_joint1_sens (sq : ℝ → ℝ) (sv : Vec2 ℝ → Vec2 ℝ → Vec2 ℝ → ℝ × ℝ)
    (s : ModelPush ℝ) (inp : Sim ℝ) (delta time : ℝ) :
    (activeLocals (MathLib.mk Real.sin Real.cos sq sv) s inp delta time).joint1_sens.lin
      = ⟨0.8 * Real.cos (inp.joint0_position + inp.joint1_position),
         -(0.8 * Real.sin (inp.joint0_position + inp.joint1_position))⟩ := by
  have e : (activeLocals (MathLib.mk Real.sin Real.cos sq sv) s inp delta time).joint1_sens
      = htrans2.rotate (MathLib.mk Real.sin Real.cos sq sv)
          (activeLocals (MathLib.mk Real.sin Real.cos sq sv) s inp delta time).joint1_pose
          (screw2.kinematic_carry ⟨-1, ⟨0, 0⟩⟩
            (htrans2.mul (MathLib.mk Real.sin Real.cos sq sv)
              (htrans2.inverse (MathLib.mk Real.sin Real.cos sq sv)
                (activeLocals (MathLib.mk Real.sin Real.cos sq sv) s inp delta time).joint1_pose)
              (activeLocals (MathLib.mk Real.sin Real.cos sq sv) s inp delta
                time).output_pose).center) := rfl
  rw [e]
  have hc := real_output_center sq sv s inp delta time
  have hj := real_joint1_center sq sv s inp delta time
  have hjo : (activeLocals (MathLib.mk Real.sin Real.cos sq sv) s inp delta
      time).joint1_pose.orient = -inp.joint0_position := by
    rw [activeLocals_joint1_pose]
  have h1 := Real.sin_sq_add_cos_sq inp.joint0_position
  apply Vec2.eq_of
  · simp only [htrans2.rotate, htrans2.mul, htrans2.inverse, screw2.kinematic_carry, rot, cross,
      hc, hj, hjo, Vec2.add_x, Vec2.add_y, Vec2.neg_x, Vec2.neg_y, neg_neg,
      Real.sin_neg, Real.cos_neg]
    linear_combination
      (0.8 * Real.cos (inp.joint0_position + inp.joint1_position)) * h1
  · simp only [htrans2.rotate, htrans2.mul, htrans2.inverse, screw2.kinematic_carry, rot, cross,
      hc, hj, hjo, Vec2.add_x, Vec2.add_y, Vec2.neg_x, Vec2.neg_y, neg_neg,
      Real.sin_neg, Real.cos_neg]
    linear_combination
      (-(0.8 * Real.sin (inp.joint0_position + inp.joint1_position))) * h1

end RealKinematics

section JacobianTheorems

/-- C15: with the real sine and cosine, for all joint angles and every base
position, joint0_sens.lin and joint1_sens.lin are (r.y, -r.x), the angular rate
-1 crossed with the global vector r from that joint to the end effector, and
they are the partial derivatives of the end-effector translation with respect
to θ0 and to θ1. -/
theorem sens_is_jacobian_column (sq : ℝ → ℝ) (sv : Vec2 ℝ → Vec2 ℝ → Vec2 ℝ → ℝ × ℝ)
    (s : ModelPush ℝ) (inp : Sim ℝ) (delta time θ0 θ1 : ℝ) :
    ((activeLocals (MathLib.mk Real.sin Real.cos sq sv) s (simAt inp θ0 θ1) delta
        time).joint0_sens.lin
      = cross (-1)
          ((activeLocals (MathLib.mk Real.sin Real.cos sq sv) s (simAt inp θ0 θ1) delta
              time).output_pose.translation
            - (activeLocals (MathLib.mk Real.sin Real.cos sq sv) s (simAt inp θ0 θ1) delta
              time).joint0_pose.translation) ∧
     (activeLocals (MathLib.mk Real.sin Real.cos sq sv) s (simAt inp θ0 θ1) delta
        time).joint1_sens.lin
      = cross (-1)
          ((activeLocals (MathLib.mk Real.sin Real.cos sq sv) s (simAt inp θ0 θ1) delta
              time).output_pose.translation
            - (activeLocals (MathLib.mk Real.sin Real.cos sq sv) s (simAt inp θ0 θ1) delta
              time).joint1_pose.translation)) ∧
    (∀ r : Vec2 ℝ, cross (-1) r = ⟨r.y, -r.x⟩) ∧
    (HasDerivAt
        (fun t => (activeLocals (MathLib.mk Real.sin Real.cos sq sv) s (simAt inp t θ1) delta
          time).output_pose.translation.x)
        (activeLocals (MathLib.mk Real.sin Real.cos sq sv) s (simAt inp θ0 θ1) delta
          time).joint0_sens.lin.x θ0 ∧
     HasDerivAt
        (fun t => (activeLocals (MathLib.mk Real.sin Real.cos sq sv) s (simAt inp t θ1) delta
          time).output_pose.translation.y)
        (activeLocals (MathLib.mk Real.sin Real.cos sq sv) s (simAt inp θ0 θ1) delta
          time).joint0_sens.lin.y θ0) ∧
    (HasDerivAt
        (fun t => (activeLocals (MathLib.mk Real.sin Real.cos sq sv) s (simAt inp θ0 t) delta
          time).output_pose.translation.x)
        (activeLocals (MathLib.mk Real.sin Real.cos sq sv) s (simAt inp θ0 θ1) delta
          time).joint1_sens.lin.x θ1 ∧
     HasDerivAt
        (fun t => (activeLocals (MathLib.mk Real.sin Real.cos sq sv) s (simAt inp θ0 t) delta
          time).output_pose.translation.y)
        (activeLocals (MathLib.mk Real.sin Real.cos sq sv) s (simAt inp θ0 θ1) delta
          time).joint1_sens.lin.y θ1) := by
  have hcross : ∀ r : Vec2 ℝ, cross (-1) r = ⟨r.y, -r.x⟩ := by
    intro r
    apply Vec2.eq_of
    · simp only [cross, neg_neg, one_mul]
    · simp only [cross, neg_mul, one_mul]
  have hj0 : (activeLocals (MathLib.mk Real.sin Real.cos sq sv) s (simAt inp θ0 θ1) delta
      time).joint0_pose.translation = ⟨inp.pos0_X, inp.pos0_Z⟩ := rfl
  have hsin0 : HasDerivAt (fun t : ℝ => 0.8 * Real.sin t) (0.8 * Real.cos θ0) θ0 :=
    (Real.hasDerivAt_sin θ0).const_mul 0.8
  have hcos0 : HasDerivAt (fun t : ℝ => 0.8 * Real.cos t) (0.8 * -Real.sin θ0) θ0 :=
    (Real.hasDerivAt_cos θ0).const_mul 0.8
  have hsinL : HasDerivAt (fun t : ℝ => 0.8 * Real.sin (t + θ1))
      (0.8 * (Real.cos (θ0 + θ1) * 1)) θ0 :=
    (((hasDerivAt_id θ0).add_const θ1).sin).const_mul 0.8
  have hcosL : HasDerivAt (fun t : ℝ => 0.8 * Real.cos (t + θ1))
      (0.8 * (-Real.sin (θ0 + θ1) * 1)) θ0 :=
    (((hasDerivAt_id θ0).add_const θ1).cos).const_mul 0.8
  have hsinR : HasDerivAt (fun t : ℝ => 0.8 * Real.sin (θ0 + t))
      (0.8 * (Real.cos (θ0 + θ1) * 1)) θ1 :=
    (((hasDerivAt_id θ1).const_add θ0).sin).const_mul 0.8
  have hcosR : HasDerivAt (fun t : ℝ => 0.8 * Real.cos (θ0 + t))
      (0.8 * (-Real.sin (θ0 + θ1) * 1)) θ1 :=
    (((hasDerivAt_id θ1).const_add θ0).cos).const_mul 0.8
  refine ⟨⟨?_, ?_⟩, hcross, ⟨?_, ?_⟩, ⟨?_, ?_⟩⟩
  · rw [hcross, hj0, htrans2.translation, real_output_center, real_joint0_sens]
    apply Vec2.eq_of
    · simp only [Vec2.sub_y, simAt]; ring
    · simp only [Vec2.sub_x, simAt]; ring
  · rw [hcross, htrans2.translation, htrans2.translation, real_output_center,
      real_joint1_center, real_joint1_sens]
    apply Vec2.eq_of
    · simp only [Vec2.sub_y, simAt]; ring
    · simp only [Vec2.sub_x, simAt]; ring
  · simp only [htrans2.translation, real_output_center, real_joint0_sens, simAt]
    have := ((hasDerivAt_const θ0 inp.pos0_X).add hsin0).add hsinL
    convert this using 1
    ring
  · simp only [htrans2.translation, real_output_center, real_joint0_sens, simAt]
    have := ((hasDerivAt_const θ0 inp.pos0_Z).add hcos0).add hcosL
    convert this using 1
    ring
  · simp only [htrans2.translation, real_output_center, real_joint1_sens, simAt]
    have := (hasDerivAt_const θ1 (inp.pos0_X + 0.8 * Real.sin θ0)).add hsinR
    convert this using 1
    ring
  · simp only [htrans2.translation, real_output_center, real_joint1_sens, simAt]
    have := (hasDerivAt_const θ1 (inp.pos0_Z + 0.8 * Real.cos θ0)).add hcosR
    convert this using 1
    ring

/-- C16: with the real sine and cosine, for all joint angles and every base
position, the determinant of joint0_sens.lin and joint1_sens.lin is
-0.8*0.8*sin(θ1), of absolute value 0.8*0.8*|sin(θ1)|, so the two vectors are
linearly dependent exactly when sin(θ1) = 0. -/
theorem sens_dependent_iff_collinear (sq : ℝ → ℝ) (sv : Vec2 ℝ → Vec2 ℝ → Vec2 ℝ → ℝ × ℝ)
    (s : ModelPush ℝ) (inp : Sim ℝ) (delta time θ0 θ1 : ℝ) :
    det2 (activeLocals (MathLib.mk Real.sin Real.cos sq sv) s (simAt inp θ0 θ1) delta
          time).joint0_sens.lin
        (activeLocals (MathLib.mk Real.sin Real.cos sq sv) s (simAt inp θ0 θ1) delta
          time).joint1_sens.lin
      = -(0.8 * 0.8 * Real.sin θ1) ∧
    |det2 (activeLocals (MathLib.mk Real.sin Real.cos sq sv) s (simAt inp θ0 θ1) delta
          time).joint0_sens.lin
        (activeLocals (MathLib.mk Real.sin Real.cos sq sv) s (simAt inp θ0 θ1) delta
          time).joint1_sens.lin|
      = 0.8 * 0.8 * |Real.sin θ1| ∧
    ((∃ a b : ℝ, (a ≠ 0 ∨ b ≠ 0) ∧
        Vec2.smul a (activeLocals (MathLib.mk Real.sin Real.cos sq sv) s (simAt inp θ0 θ1)
            delta time).joint0_sens.lin
          + Vec2.smul b (activeLocals (MathLib.mk Real.sin Real.cos sq sv) s (simAt inp θ0 θ1)
            delta time).joint1_sens.lin = ⟨0, 0⟩)
      ↔ Real.sin θ1 = 0) := by
  have hdet : det2 (activeLocals (MathLib.mk Real.sin Real.cos sq sv) s (simAt inp θ0 θ1) delta
          time).joint0_sens.lin
        (activeLocals (MathLib.mk Real.sin Real.cos sq sv) s (simAt inp θ0 θ1) delta
          time).joint1_sens.lin
      = -(0.8 * 0.8 * Real.sin θ1) := by
    rw [real_joint0_sens, real_joint1_sens]
    simp only [det2, simAt, Real.sin_add, Real.cos_add]
    linear_combination (-(0.8 * 0.8 * Real.sin θ1)) * Real.sin_sq_add_cos_sq θ0
  refine ⟨hdet, ?_, ?_⟩
  · rw [hdet, abs_neg, abs_mul, abs_of_nonneg (by norm_num : (0 : ℝ) ≤ 0.8 * 0.8)]
  · have hiff := independent_iff_det2_ne_zero
      (activeLocals (MathLib.mk Real.sin Real.cos sq sv) s (simAt inp θ0 θ1) delta
        time).joint0_sens.lin
      (activeLocals (MathLib.mk Real.sin Real.cos sq sv) s (simAt inp θ0 θ1) delta
        time).joint1_sens.lin
    have hz : det2 (activeLocals (MathLib.mk Real.sin Real.cos sq sv) s (simAt inp θ0 θ1) delta
          time).joint0_sens.lin
        (activeLocals (MathLib.mk Real.sin Real.cos sq sv) s (simAt inp θ0 θ1) delta
          time).joint1_sens.lin = 0 ↔ Real.sin θ1 = 0 := by
      rw [hdet]
      constructor
      · intro h
        have h2 : (0.8 * 0.8 : ℝ) * Real.sin θ1 = 0 := by linarith
        exact (mul_eq_zero.mp h2).resolve_left (by norm_num)
      · intro h
        rw [h]; ring
    rw [← hz]
    constructor
    · rintro ⟨a, b, hne, hab⟩
      by_contra hd
      have := hiff.mpr hd a b hab
      rcases hne with ha | hb
      · exact ha this.1
      · exact hb this.2
    · intro hd
      by_contra hex
      apply (hiff.mp ?_) hd
      intro a b hab
      by_contra hn
      apply hex
      refine ⟨a, b, ?_, hab⟩
      by_contra hboth
      apply hn
      constructor
      · by_contra ha; exact hboth (Or.inl ha)
      · by_contra hb; exact hboth (Or.inr hb)

end JacobianTheorems

end Manipulator
